import Mathlib

/-!
Verification development for the K3sUav repository: a shallow embedding of the
placement controller (`pkg/scheduler`), the routing advisor (`pkg/router`) and
their decision strategies, together with theorems settling the specification
claims.

Modelling conventions.

* Go `float64` values are modelled as exact rationals (`ℚ`).  The structure of
  every computation (branches, comparisons, clamping, integer conversion) is
  translated literally from the source; only the transcendental library calls
  (`math.Exp`, `math.Sin`, ...) are not kernel-computable and are therefore
  taken as explicit function parameters of the definitions that use them, or
  modelled over `ℝ` where a claim is about the idealised mathematics.
* Go `int(x)` conversion truncates toward zero; on the paths where it is
  applied the operand is already clamped to be `≥ 1`, so it is modelled by
  `Int.floor`.
* `fmt.Sprintf` reason strings built from floats are not kernel-computable
  either; they are taken as formatter parameters (`String`-valued functions).
  Reason strings that are literals in the source are kept literally.
* Go maps are modelled as association lists (content) plus, where a map is
  iterated (`for k := range m`), an explicit `iterOrder : List String`
  parameter standing for Go's randomized map iteration order.
* Errors (`error` return values) are modelled with `Except String`.
-/

/-- GPS sub-record of a telemetry record (`pkg/models`, `GPSData`); only the
fields read by the decision code are kept. -/
structure GPSData where
  latitude : ℚ
  longitude : ℚ
deriving Repr, DecidableEq

/-- Battery sub-record (`pkg/models`, `BatteryData`). -/
structure BatteryData where
  remainingPercent : ℚ
  voltage : ℚ
deriving Repr, DecidableEq

/-- Network sub-record (`pkg/models`, `NetworkData`); `Latency` is in ms. -/
structure NetworkData where
  latency : ℚ
deriving Repr, DecidableEq

/-- Telemetry record (`pkg/models`, `UAVMetrics`).  `network` is a nullable
pointer in the source, hence `Option`. -/
structure UAVMetrics where
  nodeName : String
  gps : GPSData
  battery : BatteryData
  network : Option NetworkData
deriving Repr, DecidableEq

/-- Per-node score (`pkg/scheduler/algorithm`, `NodeScore`). -/
structure NodeScore where
  nodeName : String
  score : ℚ
  reason : String
deriving Repr, DecidableEq

/-- The fields of a Kubernetes Pod that the scheduler reads.  The
`target-lat`/`target-lon` annotations are parsed with `fmt.Sscanf "%f"`, which
leaves the result variable at `0` when parsing fails; each annotation is
modelled as `Option ℚ` holding that parse result when the annotation key is
present. -/
structure Pod where
  name : String
  namespc : String
  schedulerName : String
  nodeName : String
  targetLatAnn : Option ℚ
  targetLonAnn : Option ℚ
deriving Repr, DecidableEq

/-! ### Placement strategies (`pkg/scheduler/algorithm`) -/

/-- A placement strategy (`SchedulingAlgorithm` interface).  The built-in
strategies' `Filter`/`Score` always return a `nil` error, so the methods are
modelled total.  The `context.Context` argument is ignored by all of them and
dropped. -/
structure SchedulingAlgorithm where
  name : String
  filter : Pod → List UAVMetrics → List UAVMetrics
  score : Pod → List UAVMetrics → List NodeScore

/-- `NetworkLatencyAlgorithm.Filter` (`network_latency.go:28`): keep the nodes
whose network sub-record is present and whose latency is `≤ MaxLatency`. -/
def networkLatencyFilter (maxLatency : ℚ) (metrics : List UAVMetrics) :
    List UAVMetrics :=
  metrics.filter fun m =>
    match m.network with
    | some n => decide (n.latency ≤ maxLatency)
    | none => false

/-- `NetworkLatencyAlgorithm.Score` (`network_latency.go:41`).  A node with no
network data gets score `0` and the literal reason `"no network data"`;
otherwise `score = 100*(1 - latency/MaxLatency)`, clamped below at `0`.
`fmtReason latency maxLatency` stands for the `fmt.Sprintf` of line 67. -/
def networkLatencyScore (maxLatency : ℚ) (fmtReason : ℚ → ℚ → String)
    (metrics : List UAVMetrics) : List NodeScore :=
  metrics.map fun m =>
    match m.network with
    | none => { nodeName := m.nodeName, score := 0, reason := "no network data" }
    | some n =>
        let score := 100 * (1 - n.latency / maxLatency)
        let score := if score < 0 then 0 else score
        { nodeName := m.nodeName, score := score,
          reason := fmtReason n.latency maxLatency }

/-- The network-latency strategy bundled as a `SchedulingAlgorithm`. -/
def networkLatencyAlgorithm (maxLatency : ℚ) (fmtReason : ℚ → ℚ → String) :
    SchedulingAlgorithm :=
  { name := "network-latency"
    filter := fun _ => networkLatencyFilter maxLatency
    score := fun _ => networkLatencyScore maxLatency fmtReason }

/-- `BatteryAwareAlgorithm.Filter` (`algorithm.go`, battery section): keep the
nodes with `remaining_percent ≥ MinBattery`. -/
def batteryFilter (minBattery : ℚ) (metrics : List UAVMetrics) :
    List UAVMetrics :=
  metrics.filter fun m => decide (minBattery ≤ m.battery.remainingPercent)

/-- `BatteryAwareAlgorithm.Score`: the battery percentage is the score, forced
to `0` below the threshold. -/
def batteryScore (minBattery : ℚ) (fmtReason : ℚ → ℚ → String)
    (metrics : List UAVMetrics) : List NodeScore :=
  metrics.map fun m =>
    let score := m.battery.remainingPercent
    let score := if score < minBattery then 0 else score
    { nodeName := m.nodeName, score := score,
      reason := fmtReason m.battery.remainingPercent minBattery }

/-- The battery-aware placement strategy bundled as a `SchedulingAlgorithm`. -/
def batteryAlgorithm (minBattery : ℚ) (fmtReason : ℚ → ℚ → String) :
    SchedulingAlgorithm :=
  { name := "battery-aware"
    filter := fun _ => batteryFilter minBattery
    score := fun _ => batteryScore minBattery fmtReason }

/-! ### The scheduler's Taylor-series math helpers (distance strategy file) -/

/-- The literal constant `3.14159265359` used by every math helper of the
scheduler's distance strategy in place of `math.Pi`. -/
def piGo : ℚ := 3.14159265359

/-- The scheduler's Taylor `cos` helper (6th-order polynomial). -/
def cosGo (x : ℚ) : ℚ :=
  let x2 := x * x
  1 - x2 / 2 + x2 * x2 / 24 - x2 * x2 * x2 / 720

/-- The scheduler's Taylor `sin` helper (5th-order polynomial; defined in the
source alongside the others). -/
def sinGo (x : ℚ) : ℚ :=
  let x2 := x * x
  x - x * x2 / 6 + x * x2 * x2 / 120

/-- The scheduler's Newton-iteration `sqrt` helper: `0` for non-positive
input, otherwise 10 iterations of `z := (z + x/z)/2` starting from `z := x`. -/
def sqrtGo (x : ℚ) : ℚ :=
  if x ≤ 0 then 0
  else (List.range 10).foldl (fun z _ => (z + x / z) / 2) x

/-- Body of the scheduler's Taylor `atan` helper for arguments in `[-1, 1]`. -/
def atanPoly (x : ℚ) : ℚ :=
  let x2 := x * x
  x - x * x2 / 3 + x * x2 * x2 / 5 - x * x2 * x2 * x2 / 7

/-- The scheduler's Taylor `atan` helper.  The source recurses on `1/x` when
`|x| > 1`; the recursive call's argument then lies in `(-1, 1)` and takes the
polynomial branch, so the depth-one recursion is inlined via `atanPoly`. -/
def atanGo (x : ℚ) : ℚ :=
  if 1 < x then piGo / 2 - atanPoly (1 / x)
  else if x < -1 then -piGo / 2 - atanPoly (1 / x)
  else atanPoly x

/-- The scheduler's `atan2` helper (quadrant correction around `atanGo`). -/
def atan2Go (y x : ℚ) : ℚ :=
  if 0 < x then atanGo (y / x)
  else if x < 0 ∧ 0 ≤ y then atanGo (y / x) + piGo
  else if x < 0 ∧ y < 0 then atanGo (y / x) - piGo
  else if 0 < y then piGo / 2
  else -(piGo / 2)

/-- The scheduler's `asin` helper: clamp the argument to `[-1, 1]`, then
`atan2(x, sqrt(1 - x*x))`. -/
def asinGo (x : ℚ) : ℚ :=
  let x := if 1 < x then 1 else x
  let x := if x < -1 then -1 else x
  atan2Go x (sqrtGo (1 - x * x))

/-- The scheduler's `CalculateDistance`: Haversine with earth radius 6371 km,
computed entirely with the Taylor/Newton helpers above and the literal
constant `piGo`.  All arithmetic is rational, so this is exact. -/
def schedCalculateDistance (lat1 lon1 lat2 lon2 : ℚ) : ℚ :=
  let R : ℚ := 6371
  let lat1Rad := lat1 * piGo / 180
  let lat2Rad := lat2 * piGo / 180
  let deltaLat := (lat2 - lat1) * piGo / 180
  let deltaLon := (lon2 - lon1) * piGo / 180
  let a := 0.5 - 0.5 * cosGo deltaLat +
    cosGo lat1Rad * cosGo lat2Rad * (0.5 - 0.5 * cosGo deltaLon)
  2 * R * asinGo (sqrtGo a)

/-! ### Distance-based placement strategy (stateful) -/

/-- The `DistanceBasedAlgorithm` object: its only state is the stored
`TargetLocation`. -/
structure DistanceBasedAlgorithm where
  targetLat : ℚ
  targetLon : ℚ
deriving Repr, DecidableEq

/-- `NewDistanceBasedAlgorithm`: store the configured default target. -/
def NewDistanceBasedAlgorithm (targetLat targetLon : ℚ) :
    DistanceBasedAlgorithm :=
  { targetLat := targetLat, targetLon := targetLon }

/-- The target-selection prefix of `DistanceBasedAlgorithm.Score`: when both
annotations are present their parsed values are assigned into the receiver's
`TargetLocation` — a mutation of the (pointer) receiver that persists across
calls; otherwise the stored location is untouched. -/
def distanceTargetAfter (a : DistanceBasedAlgorithm) (pod : Pod) :
    DistanceBasedAlgorithm :=
  match pod.targetLatAnn, pod.targetLonAnn with
  | some lat, some lon => { targetLat := lat, targetLon := lon }
  | _, _ => a

/-- `DistanceBasedAlgorithm.Score`: returns the updated algorithm object (the
receiver after its `TargetLocation` mutation) together with the scores.
`score = 100 / (1 + distance)`; `fmtReason d lat lon` stands for the
`fmt.Sprintf` reason. -/
def distanceScore (a : DistanceBasedAlgorithm)
    (fmtReason : ℚ → ℚ → ℚ → String) (pod : Pod)
    (metrics : List UAVMetrics) : DistanceBasedAlgorithm × List NodeScore :=
  let a := distanceTargetAfter a pod
  (a, metrics.map fun m =>
    let d := schedCalculateDistance m.gps.latitude m.gps.longitude
      a.targetLat a.targetLon
    { nodeName := m.nodeName, score := 100 / (1 + d),
      reason := fmtReason d a.targetLat a.targetLon })

/-! ### Composite placement strategy constructor -/

/-- The `CompositeAlgorithm` object. -/
structure CompositeAlgorithm where
  algorithms : List SchedulingAlgorithm
  weights : List ℚ

/-- `NewCompositeAlgorithm` (`pkg/scheduler/algorithm/composite.go:19`): if the
weight count differs from the strategy count, the weights are replaced by the
uniform vector `1/n`; then, only if the sum is positive, the vector is
normalised by the sum.  The constructor has no error return at all. -/
def NewCompositeAlgorithm (algorithms : List SchedulingAlgorithm)
    (weights : List ℚ) : CompositeAlgorithm :=
  let weights :=
    if weights.length ≠ algorithms.length then
      List.replicate algorithms.length (1 / (algorithms.length : ℚ))
    else weights
  let sum := weights.foldl (· + ·) 0
  let weights := if 0 < sum then weights.map (· / sum) else weights
  { algorithms := algorithms, weights := weights }

/-! ### Placement controller (`pkg/scheduler/scheduler.go`) -/

/-- The fields of `SchedulerConfig` that the watch/schedule loop reads. -/
structure SchedulerConfig where
  schedulerName : String
  namespc : String
deriving Repr, DecidableEq

/-- Kubernetes watch event kinds handled by `watchAndSchedule`. -/
inductive EventType where
  | added
  | modified
  | deleted
deriving Repr, DecidableEq

/-- A watch event carrying a Pod. -/
structure WatchEvent where
  type : EventType
  pod : Pod
deriving Repr, DecidableEq

/-- The binding object committed by `bindPodToNode` (`scheduler.go:247`):
name/namespace copied from the pod, target kind `"Node"` and target name the
chosen node. -/
structure Binding where
  podName : String
  podNamespace : String
  targetKind : String
  targetNode : String
deriving Repr, DecidableEq

/-- The postcondition Go guarantees for the `sort.Slice` call at
`scheduler.go:208` with comparator `scores[i].Score > scores[j].Score`: the
result is a permutation of the input that is non-increasing on `score`.
`sort.Slice` is documented as NOT guaranteed to be stable, so this relation —
and nothing stronger — is what the code may rely on; the order among
equal-score entries is unspecified. -/
def SortsDescOnScore (input output : List NodeScore) : Prop :=
  input.Perm output ∧
    output.Sorted (fun a b : NodeScore => b.score ≤ a.score)

/-- One run of `Scheduler.schedulePod` (`scheduler.go:169`), relationally
because of the unspecified sort order: fetch metrics (given here as the `List`
result of `ListUAVMetrics`), fail on empty; filter, fail on empty; score, fail
on empty; sort descending by score; bind the head.  Algorithm errors are
impossible for the built-in strategies (modelled total), so the `filter
error`/`score error` returns do not arise. -/
inductive SchedulePodRun (algo : SchedulingAlgorithm) (pod : Pod)
    (metrics : List UAVMetrics) : Option (Binding × NodeScore) → Prop where
  | noNodes :
      metrics = [] →
      SchedulePodRun algo pod metrics none
  | noneFiltered :
      metrics ≠ [] →
      algo.filter pod metrics = [] →
      SchedulePodRun algo pod metrics none
  | noScores :
      metrics ≠ [] →
      algo.filter pod metrics ≠ [] →
      algo.score pod (algo.filter pod metrics) = [] →
      SchedulePodRun algo pod metrics none
  | bound (best : NodeScore) (rest : List NodeScore) :
      metrics ≠ [] →
      algo.filter pod metrics ≠ [] →
      SortsDescOnScore (algo.score pod (algo.filter pod metrics))
        (best :: rest) →
      SchedulePodRun algo pod metrics
        (some (⟨pod.name, pod.namespc, "Node", best.nodeName⟩, best))

/-- The event-eligibility check of `watchAndSchedule` (`scheduler.go:138-152`):
the event is ADDED or MODIFIED, the pod's `schedulerName` equals the
configured name, and the pod's `nodeName` is empty. -/
def eligibleEvent (cfg : SchedulerConfig) (ev : WatchEvent) : Bool :=
  (ev.type == EventType.added || ev.type == EventType.modified) &&
    ev.pod.schedulerName == cfg.schedulerName &&
    ev.pod.nodeName == ""

/-- Processing of one watch event by `watchAndSchedule`: either the event is
skipped by one of the eligibility guards (no binding), or `schedulePod` runs;
the produced binding, if any, is the one `schedulePod` committed. -/
inductive WatchStep (cfg : SchedulerConfig) (algo : SchedulingAlgorithm)
    (metrics : List UAVMetrics) (ev : WatchEvent) : Option Binding → Prop where
  | skipped :
      eligibleEvent cfg ev = false →
      WatchStep cfg algo metrics ev none
  | scheduleFailed :
      eligibleEvent cfg ev = true →
      SchedulePodRun algo ev.pod metrics none →
      WatchStep cfg algo metrics ev none
  | scheduled (b : Binding) (best : NodeScore) :
      eligibleEvent cfg ev = true →
      SchedulePodRun algo ev.pod metrics (some (b, best)) →
      WatchStep cfg algo metrics ev (some b)

/-- Modelled from the spec: the winner the specification describes — a stable
descending sort on score followed by taking the head, i.e. the FIRST
maximal-score entry in input (iteration) order.  Used only to compare the
spec's tie-breaking rule with what the code guarantees. -/
def specStableWinner (scores : List NodeScore) : Option NodeScore :=
  scores.find? fun s => scores.all fun t => decide (t.score ≤ s.score)

/-! ### Routing strategies (`pkg/router/algorithm`) -/

/-- A service endpoint (`types.go`, `Endpoint`). -/
structure Endpoint where
  podName : String
  podIP : String
  nodeName : String
  namespc : String
  service : String
  port : ℤ
deriving Repr, DecidableEq

/-- A weighted endpoint (`types.go`, `EndpointWeight`); `weight` is a Go
`int`. -/
structure EndpointWeight where
  endpoint : Endpoint
  weight : ℤ
  priority : ℤ
  reason : String
deriving Repr, DecidableEq

/-- A routing strategy (`RoutingAlgorithm` interface); arguments are
`(sourceNode, sourceMetrics, targetEndpoints, targetMetrics)`; the
`context.Context` is unused and dropped. -/
structure RoutingAlgorithm where
  name : String
  computeWeights : String → Option UAVMetrics → List Endpoint →
    (String → Option UAVMetrics) → Except String (List EndpointWeight)

/-- The `BatteryAwareRouter` object. -/
structure BatteryAwareRouter where
  minBattery : ℚ
deriving Repr, DecidableEq

/-- `NewBatteryAwareRouter`: a non-positive threshold is replaced by the
default 20%. -/
def NewBatteryAwareRouter (minBattery : ℚ) : BatteryAwareRouter :=
  if minBattery ≤ 0 then { minBattery := 20 } else { minBattery := minBattery }

/-- `BatteryAwareRouter.ComputeWeights` (`battery_aware.go:33`): skip
endpoints with no target telemetry or battery below the threshold; weight is
the battery percentage, scaled by 1.2 above 80 or by 0.8 below 30, clamped to
`[1, 100]` and converted with Go `int()` (truncation; the operand is in
`[1, 100]`, so this is `Int.floor`).  Error when no endpoint survives. -/
def batteryRouterComputeWeights (r : BatteryAwareRouter)
    (fmtReason : ℚ → ℚ → String) (_sourceNode : String)
    (_sourceMetrics : Option UAVMetrics) (targetEndpoints : List Endpoint)
    (targetMetrics : String → Option UAVMetrics) :
    Except String (List EndpointWeight) :=
  let weights := targetEndpoints.filterMap fun ep =>
    match targetMetrics ep.nodeName with
    | none => none
    | some tm =>
        if tm.battery.remainingPercent < r.minBattery then none
        else
          let weight := tm.battery.remainingPercent
          let weight :=
            if 80 < tm.battery.remainingPercent then weight * 1.2
            else if tm.battery.remainingPercent < 30 then weight * 0.8
            else weight
          let weight := if 100 < weight then 100 else weight
          let weight := if weight < 1 then 1 else weight
          some { endpoint := ep, weight := ⌊weight⌋, priority := 0,
                 reason := fmtReason tm.battery.remainingPercent
                   tm.battery.voltage }
  if weights = [] then
    .error "no eligible endpoints found with battery above threshold"
  else .ok weights

/-- The `DistanceBasedRouter` object. -/
structure DistanceBasedRouter where
  maxDistance : ℚ
deriving Repr, DecidableEq

/-- `NewDistanceBasedRouter`: a non-positive maximum distance is replaced by
the default 1000 km. -/
def NewDistanceBasedRouter (maxDistance : ℚ) : DistanceBasedRouter :=
  if maxDistance ≤ 0 then { maxDistance := 1000 } else
    { maxDistance := maxDistance }

/-- `DistanceBasedRouter.ComputeWeights` (`distance_based.go:34`).
`dist` stands for the router's float `CalculateDistance` (platform `math`
library, not kernel-computable) and `expGo` for `math.Exp`; both are taken as
parameters.  Per endpoint: skip when target telemetry is missing; compute the
distance from the source GPS to the target GPS; skip when it exceeds
`MaxDistance`; otherwise `weight = 100 * exp(-distance/50)`, raised to 1 when
below 1, and converted with Go `int()` (truncation toward zero; `Int.floor`
agrees on the branch where the operand is `≥ 1`, and the other branch yields
the literal 1).  Error when no endpoint survives. -/
def distanceRouterComputeWeights (r : DistanceBasedRouter)
    (dist : ℚ → ℚ → ℚ → ℚ → ℚ) (expGo : ℚ → ℚ) (fmtReason : ℚ → String)
    (_sourceNode : String) (sourceMetrics : Option UAVMetrics)
    (targetEndpoints : List Endpoint)
    (targetMetrics : String → Option UAVMetrics) :
    Except String (List EndpointWeight) :=
  match sourceMetrics with
  | none => .error "source metrics is nil"
  | some sm =>
      let scale : ℚ := 50
      let weights := targetEndpoints.filterMap fun ep =>
        match targetMetrics ep.nodeName with
        | none => none
        | some tm =>
            let distance := dist sm.gps.latitude sm.gps.longitude
              tm.gps.latitude tm.gps.longitude
            if r.maxDistance < distance then none
            else
              let weight := 100 * expGo (-(distance / scale))
              if weight < 1 then
                some { endpoint := ep, weight := 1, priority := 0,
                       reason := fmtReason distance }
              else
                some { endpoint := ep, weight := ⌊weight⌋, priority := 0,
                       reason := fmtReason distance }
      if weights = [] then
        .error "no eligible endpoints found within max distance"
      else .ok weights

/-! ### Composite routing strategy (`pkg/router/algorithm/composite.go`) -/

/-- The `CompositeRouter` object. -/
structure CompositeRouter where
  algorithms : List RoutingAlgorithm
  weights : List ℚ

/-- `NewCompositeRouter` (`composite.go:20`): a length mismatch or an empty
strategy list is a construction-time ERROR; otherwise the weights are divided
by their sum and the composite is returned with no error — the sum is never
tested, so a zero-sum vector also reaches the `.ok` return.  On that
zero-sum path only the error/no-error OUTCOME is modelled faithfully: the
divided weight VALUES there are float-specific (Go produces ±Inf/NaN,
which ℚ cannot represent; `q / 0 = 0` here), so no theorem below states
anything about them. -/
def NewCompositeRouter (algorithms : List RoutingAlgorithm)
    (weights : List ℚ) : Except String CompositeRouter :=
  if algorithms.length ≠ weights.length then
    .error "algorithms and weights length mismatch"
  else if algorithms.length = 0 then
    .error "at least one algorithm required"
  else
    let sum := weights.foldl (· + ·) 0
    .ok { algorithms := algorithms, weights := weights.map (· / sum) }

/-- Go `totalScores[key] += v` together with
`reasonMap[key] = append(reasonMap[key], r)`, on one association list keyed by
pod IP (the two source maps always gain keys together). -/
def addScore (acc : List (String × ℚ × List String)) (key : String) (v : ℚ)
    (r : String) : List (String × ℚ × List String) :=
  match acc with
  | [] => [(key, v, [r])]
  | (k, s, rs) :: t =>
      if k = key then (k, s + v, rs ++ [r]) :: t
      else (k, s, rs) :: addScore t key v r

/-- One iteration of the accumulation loop of
`CompositeRouter.ComputeWeights` (`composite.go:63-79`): compute the
sub-strategy's weights; a sub-strategy returning an error is SKIPPED
(`continue`), not propagated; otherwise each of its entries contributes
`weight * Weights[i]` to the pod-IP keyed total, together with a reason
string (`fmtSub name (weight*100) subReason`). -/
def accumStep (fmtSub : String → ℚ → String → String) (sourceNode : String)
    (sm : Option UAVMetrics) (eps : List Endpoint)
    (tm : String → Option UAVMetrics)
    (acc : List (String × ℚ × List String)) (aw : RoutingAlgorithm × ℚ) :
    List (String × ℚ × List String) :=
  match aw.1.computeWeights sourceNode sm eps tm with
  | .error _ => acc
  | .ok ws => ws.foldl
      (fun acc w => addScore acc w.endpoint.podIP
        ((w.weight : ℚ) * aw.2) (fmtSub aw.1.name (aw.2 * 100) w.reason))
      acc

/-- The full accumulation loop over the (strategy, weight) pairs. -/
def compositeAccum (r : CompositeRouter)
    (fmtSub : String → ℚ → String → String) (sourceNode : String)
    (sm : Option UAVMetrics) (eps : List Endpoint)
    (tm : String → Option UAVMetrics) : List (String × ℚ × List String) :=
  (r.algorithms.zip r.weights).foldl
    (accumStep fmtSub sourceNode sm eps tm) []

/-- The body of the final `for podIP, score := range totalScores` loop
(`composite.go:94-115`): skip pod IPs absent from the endpoint map (built
from `targetEndpoints`, last entry winning), clamp the accumulated score to
`[1, 100]` and convert with Go `int()` (truncation; equal to `Int.floor` on
`[1, 100]`). -/
def compositeEmit (totalScores : List (String × ℚ × List String))
    (eps : List Endpoint) (fmtAgg : List String → String) (ip : String) :
    Option EndpointWeight :=
  match totalScores.lookup ip with
  | none => none
  | some (score, rs) =>
      match eps.reverse.find? (fun ep => ep.podIP == ip) with
      | none => none
      | some ep =>
          let fw := if 100 < score then 100 else score
          let fw := if fw < 1 then 1 else fw
          some { endpoint := ep, weight := ⌊fw⌋, priority := 0,
                 reason := fmtAgg rs }

/-- `CompositeRouter.ComputeWeights` (`composite.go:50`).  After the
accumulation: error when nothing was accumulated; otherwise iterate the
`totalScores` map — the order of that Go map iteration is randomized, so it
is the explicit `iterOrder` parameter here (theorems about complete outputs
assume it enumerates the accumulated keys exactly once) — emitting one
clamped weighted endpoint per pod IP. -/
def compositeComputeWeights (r : CompositeRouter) (iterOrder : List String)
    (fmtSub : String → ℚ → String → String) (fmtAgg : List String → String)
    (sourceNode : String) (sm : Option UAVMetrics) (eps : List Endpoint)
    (tm : String → Option UAVMetrics) : Except String (List EndpointWeight) :=
  let totalScores := compositeAccum r fmtSub sourceNode sm eps tm
  if totalScores = [] then
    .error "no eligible endpoints found by any algorithm"
  else
    .ok (iterOrder.filterMap (compositeEmit totalScores eps fmtAgg))

/-! ### Routing advisor core (`pkg/router/router.go`) -/

/-- The `RouterAgent` state read by `ComputeRouting`: the node identity, the
configured strategy, and the two caches (map content as association lists). -/
structure RouterAgent where
  nodeName : String
  algorithm : RoutingAlgorithm
  metricsCache : List (String × UAVMetrics)
  endpointsCache : List (String × List Endpoint)

/-- `RouterAgent.ComputeRouting` (`router.go:210`): read the source node's
telemetry from the metrics cache (error when absent), read the service's
endpoint list (error when absent or empty), then run the configured strategy;
a strategy error is wrapped and surfaced. -/
def ComputeRouting (r : RouterAgent) (serviceName : String) :
    Except String (List EndpointWeight) :=
  let targetMetrics := fun n => r.metricsCache.lookup n
  match r.metricsCache.lookup r.nodeName with
  | none => .error ("source node " ++ r.nodeName ++
      " metrics not found in cache")
  | some sm =>
      match r.endpointsCache.lookup serviceName with
      | none => .error ("no endpoints found for service " ++ serviceName)
      | some eps =>
          if eps = [] then
            .error ("no endpoints found for service " ++ serviceName)
          else
            match r.algorithm.computeWeights r.nodeName (some sm) eps
              targetMetrics with
            | .error e => .error ("algorithm " ++ r.algorithm.name ++
                " failed: " ++ e)
            | .ok ws => .ok ws

/-! ### Idealised routing `CalculateDistance` (`distance_based.go:97`)

The routing advisor's Haversine uses the platform `math` library
(`math.Pi`, `math.Sin`, `math.Cos`, `math.Sqrt`, `math.Atan2`).  Those are
float64 approximations of the real functions; for the comparison claim they
are modelled by the exact real functions over `ℝ`. -/

/-- Idealised `math.Atan2` (the standard two-argument arctangent); the claims
only evaluate it at `(1, 0)`, where every convention gives `π/2`. -/
noncomputable def mathAtan2 (y x : ℝ) : ℝ :=
  if 0 < x then Real.arctan (y / x)
  else if x < 0 ∧ 0 ≤ y then Real.arctan (y / x) + Real.pi
  else if x < 0 ∧ y < 0 then Real.arctan (y / x) - Real.pi
  else if 0 < y then Real.pi / 2
  else if y < 0 then -(Real.pi / 2)
  else 0

/-- The routing advisor's `CalculateDistance`: Haversine with earth radius
6371 km over the platform math library, idealised over `ℝ`. -/
noncomputable def routerCalculateDistance (lat1 lon1 lat2 lon2 : ℝ) : ℝ :=
  let earthRadiusKm : ℝ := 6371
  let lat1Rad := lat1 * Real.pi / 180
  let lat2Rad := lat2 * Real.pi / 180
  let deltaLat := (lat2 - lat1) * Real.pi / 180
  let deltaLon := (lon2 - lon1) * Real.pi / 180
  let a := Real.sin (deltaLat / 2) * Real.sin (deltaLat / 2) +
    Real.cos lat1Rad * Real.cos lat2Rad *
      (Real.sin (deltaLon / 2) * Real.sin (deltaLon / 2))
  let c := 2 * mathAtan2 (Real.sqrt a) (Real.sqrt (1 - a))
  earthRadiusKm * c

/-! ### Scheduler environment configuration (`pkg/scheduler/config`) -/

/-- `getEnvOrDefault`: `os.Getenv` returns `""` for an unset variable (the
environment is modelled as a total `String → String` for that reason); an
empty value yields the default. -/
def getEnvOrDefault (env : String → String) (key defaultValue : String) :
    String :=
  if env key = "" then defaultValue else env key

/-- `getEnvIntOrDefault`: empty value yields the default; otherwise the value
is parsed with `fmt.Sscanf "%d"` into a zero-initialised variable — modelled
by the parameter `parse`, which by that convention returns 0 exactly when
parsing fails or the value is literally zero — and a result of 0 yields the
default. -/
def getEnvIntOrDefault (parse : String → ℤ) (env : String → String)
    (key : String) (defaultValue : ℤ) : ℤ :=
  let value := env key
  if value = "" then defaultValue
  else
    let result := parse value
    if result = 0 then defaultValue else result

/-- `getEnvFloatOrDefault`: as `getEnvIntOrDefault` with `fmt.Sscanf "%f"`. -/
def getEnvFloatOrDefault (parse : String → ℚ) (env : String → String)
    (key : String) (defaultValue : ℚ) : ℚ :=
  let value := env key
  if value = "" then defaultValue
  else
    let result := parse value
    if result = 0 then defaultValue else result

/-- The `AlgorithmParams` block of the scheduler config. -/
structure AlgorithmParams where
  targetLatitude : ℚ
  targetLongitude : ℚ
  minBattery : ℚ
  maxLatency : ℚ
deriving Repr, DecidableEq

/-- The scheduler `SchedulerConfig` fields produced by `DefaultConfig` that
the claims mention. -/
structure SchedulerConfigFull where
  schedulerName : String
  algorithmName : String
  namespc : String
  workerThreads : ℤ
  algorithmParams : AlgorithmParams
deriving Repr, DecidableEq

/-- `DefaultConfig` (scheduler `config.go:260`), restricted to the fields the
claims mention.  The literal defaults 34.0522, -118.2437, 30.0, 200.0 are
decimal-exact here (in Go they are the nearest float64, which does not affect
any claim). -/
def DefaultConfig (parseI : String → ℤ) (parseF : String → ℚ)
    (env : String → String) : SchedulerConfigFull :=
  { schedulerName := getEnvOrDefault env "SCHEDULER_NAME" "uav-scheduler"
    algorithmName := getEnvOrDefault env "ALGORITHM_NAME" "distance-based"
    namespc := getEnvOrDefault env "NAMESPACE" "default"
    workerThreads := getEnvIntOrDefault parseI env "WORKER_THREADS" 1
    algorithmParams :=
      { targetLatitude :=
          getEnvFloatOrDefault parseF env "TARGET_LATITUDE" 34.0522
        targetLongitude :=
          getEnvFloatOrDefault parseF env "TARGET_LONGITUDE" (-118.2437)
        minBattery := getEnvFloatOrDefault parseF env "MIN_BATTERY" 30
        maxLatency := getEnvFloatOrDefault parseF env "MAX_LATENCY" 200 } }

/-! ### Shared fixtures and helper lemmas -/

/-- Trivial stand-in for a two-argument `fmt.Sprintf` reason formatter. -/
def fmt2 : ℚ → ℚ → String := fun _ _ => ""

/-- Trivial stand-in for the distance strategy's three-argument formatter. -/
def fmt3 : ℚ → ℚ → ℚ → String := fun _ _ _ => ""

/-- A telemetry record at the origin with battery 50% and no network data. -/
def exNode00 : UAVMetrics :=
  { nodeName := "uav-a", gps := { latitude := 0, longitude := 0 },
    battery := { remainingPercent := 50, voltage := 12 }, network := none }

/-! ### Concrete fixtures and factored loop bodies used below -/

/-- A telemetry record with latency 150 ms. -/
def exNodeLat150 : UAVMetrics :=
  { nodeName := "uav-lat-a", gps := { latitude := 0, longitude := 0 },
    battery := { remainingPercent := 50, voltage := 12 },
    network := some { latency := 150 } }

/-- A telemetry record with latency 250 ms. -/
def exNodeLat250 : UAVMetrics :=
  { nodeName := "uav-lat-b", gps := { latitude := 0, longitude := 0 },
    battery := { remainingPercent := 50, voltage := 12 },
    network := some { latency := 250 } }

/-- The scheduler configuration used by concrete runs. -/
def exCfg : SchedulerConfig :=
  { schedulerName := "uav-scheduler", namespc := "default" }

/-- An eligible pod: correct scheduler name, empty node name. -/
def exPodEligible : Pod :=
  { name := "p-c2", namespc := "default",
    schedulerName := "uav-scheduler", nodeName := "", targetLatAnn := none,
    targetLonAnn := none }

/-- An ADDED event for the eligible pod. -/
def exEvC2 : WatchEvent := { type := EventType.added, pod := exPodEligible }

/-- The binding the concrete run commits. -/
def exBindC2 : Binding :=
  { podName := "p-c2", podNamespace := "default",
    targetKind := "Node", targetNode := "uav-a" }

/-- The winning score of the concrete run. -/
def exBestC2 : NodeScore := { nodeName := "uav-a", score := 50, reason := "" }

/-- A telemetry record with battery 80%. -/
def exNodeB80 : UAVMetrics :=
  { nodeName := "uav-b80", gps := { latitude := 0, longitude := 0 },
    battery := { remainingPercent := 80, voltage := 12 }, network := none }

/-- A telemetry record with battery 40%. -/
def exNodeB40 : UAVMetrics :=
  { nodeName := "uav-b40", gps := { latitude := 0, longitude := 0 },
    battery := { remainingPercent := 40, voltage := 12 }, network := none }

/-- A 50%-battery node listed first. -/
def exNodeT1 : UAVMetrics :=
  { nodeName := "uav-t1", gps := { latitude := 0, longitude := 0 },
    battery := { remainingPercent := 50, voltage := 12 }, network := none }

/-- A 50%-battery node listed second. -/
def exNodeT2 : UAVMetrics :=
  { nodeName := "uav-t2", gps := { latitude := 0, longitude := 0 },
    battery := { remainingPercent := 50, voltage := 12 }, network := none }

/-- An eligible pod carrying target annotations (0, 180). -/
def exPodAnn : Pod :=
  { name := "p-ann", namespc := "default",
    schedulerName := "uav-scheduler", nodeName := "",
    targetLatAnn := some 0, targetLonAnn := some 180 }

/-- An eligible pod without target annotations. -/
def exPodPlain : Pod :=
  { name := "p-plain", namespc := "default",
    schedulerName := "uav-scheduler", nodeName := "",
    targetLatAnn := none, targetLonAnn := none }

/-- The per-endpoint body of the distance router's loop, factored out: `none`
when the endpoint is dropped (no target telemetry, or distance beyond
`MaxDistance`), otherwise the weighted endpoint. -/
def distanceKeep (r : DistanceBasedRouter) (dist : ℚ → ℚ → ℚ → ℚ → ℚ)
    (expGo : ℚ → ℚ) (fmtReason : ℚ → String) (sm : UAVMetrics)
    (tm : String → Option UAVMetrics) (ep : Endpoint) :
    Option EndpointWeight :=
  match tm ep.nodeName with
  | none => none
  | some tmet =>
      let distance := dist sm.gps.latitude sm.gps.longitude
        tmet.gps.latitude tmet.gps.longitude
      if r.maxDistance < distance then none
      else
        let weight := 100 * expGo (-(distance / 50))
        if weight < 1 then
          some { endpoint := ep, weight := 1, priority := 0,
                 reason := fmtReason distance }
        else
          some { endpoint := ep, weight := ⌊weight⌋, priority := 0,
                 reason := fmtReason distance }

/-- A concrete endpoint fixture. -/
def exEpA : Endpoint :=
  { podName := "pod-a", podIP := "10.0.0.1", nodeName := "uav-a",
    namespc := "default", service := "svc", port := 80 }

/-- A concrete distance oracle standing for a `CalculateDistance` evaluation
that returned 200 km. -/
def dist200 : ℚ → ℚ → ℚ → ℚ → ℚ := fun _ _ _ _ => 200

/-- A concrete exponential oracle: `exp(-200/50) = exp(-4) ≈ 0.0183156…`,
truncated here to an 11-digit rational below the true value (any value whose
`100·` multiple has fractional part in `[1/2, 1)` exhibits the behaviour). -/
def exp183 : ℚ → ℚ := fun _ => 1831563889 / 100000000000

/-- Trivial one-argument formatter stub. -/
def fmt1 : ℚ → String := fun _ => ""

/-- The accumulated score of a pod IP (0 when the key is absent, matching Go
`totalScores[key]`'s zero value). -/
def scoreOf (l : List (String × ℚ × List String)) (ip : String) : ℚ :=
  match l.lookup ip with
  | none => 0
  | some (s, _) => s

/-- Modelled from the spec: the aggregate `Σᵢ weightᵢ · w_subᵢ` for one pod
IP — for each sub-strategy in order, 0 when it errors, otherwise the sum of
`weight·Weights[i]` over its entries for that pod IP. -/
def specAggScore (subs : List (RoutingAlgorithm × ℚ)) (sourceNode : String)
    (sm : Option UAVMetrics) (eps : List Endpoint)
    (tm : String → Option UAVMetrics) (ip : String) : ℚ :=
  (subs.map fun aw =>
    match aw.1.computeWeights sourceNode sm eps tm with
    | .error _ => 0
    | .ok ws => ((ws.filter fun w => w.endpoint.podIP == ip).map
        fun w => (w.weight : ℚ) * aw.2).sum).sum

/-- Battery routing strategy with threshold 60% bundled for the composite
(errors whenever every target battery is below 60%). -/
def batteryAlg60 : RoutingAlgorithm :=
  { name := "battery-aware",
    computeWeights := fun sn sm eps tm =>
      batteryRouterComputeWeights (NewBatteryAwareRouter 60) fmt2 sn sm
        eps tm }

/-- Battery routing strategy with the default 20% threshold bundled for the
composite. -/
def batteryAlg50 : RoutingAlgorithm :=
  { name := "battery-aware",
    computeWeights := fun sn sm eps tm =>
      batteryRouterComputeWeights (NewBatteryAwareRouter 20) fmt2 sn sm
        eps tm }

/-- Sub-reason formatter stub for the composite. -/
def fmtS0 : String → ℚ → String → String := fun _ _ _ => ""

/-- Aggregate-reason formatter stub for the composite. -/
def fmtA0 : List String → String := fun _ => ""

/-- The weighted endpoint emitted in the concrete composite run: the
50%-battery endpoint weighted by 0.3 gives `⌊50·0.3⌋ = 15`. -/
def exW15 : EndpointWeight :=
  { endpoint := exEpA, weight := 15, priority := 0, reason := "" }

/-- The per-endpoint body of the battery router's loop, factored out. -/
def batteryKeep (r : BatteryAwareRouter) (fmtReason : ℚ → ℚ → String)
    (tm : String → Option UAVMetrics) (ep : Endpoint) :
    Option EndpointWeight :=
  match tm ep.nodeName with
  | none => none
  | some tmet =>
      if tmet.battery.remainingPercent < r.minBattery then none
      else
        let weight := tmet.battery.remainingPercent
        let weight :=
          if 80 < tmet.battery.remainingPercent then weight * 1.2
          else if tmet.battery.remainingPercent < 30 then weight * 0.8
          else weight
        let weight := if 100 < weight then 100 else weight
        let weight := if weight < 1 then 1 else weight
        some { endpoint := ep, weight := ⌊weight⌋, priority := 0,
               reason := fmtReason tmet.battery.remainingPercent
                 tmet.battery.voltage }

/-- A second endpoint on the 90%-battery node. -/
def exEpB : Endpoint :=
  { podName := "pod-b", podIP := "10.0.0.2", nodeName := "uav-b90",
    namespc := "default", service := "svc", port := 80 }

/-- A telemetry record with battery 90% (gets the 1.2 high-battery bonus and
is clamped to 100). -/
def exNodeB90 : UAVMetrics :=
  { nodeName := "uav-b90", gps := { latitude := 1, longitude := 1 },
    battery := { remainingPercent := 90, voltage := 12 }, network := none }

/-- The composite under test for the order counterexample: a single battery
sub-strategy with weight 1. -/
def exC9 : CompositeRouter := { algorithms := [batteryAlg50], weights := [1] }

/-- Router agent state whose composite iterates the score map in the order
`[10.0.0.1, 10.0.0.2]`. -/
def exCompositeAlg1 : RoutingAlgorithm :=
  { name := "composite",
    computeWeights :=
      compositeComputeWeights exC9 ["10.0.0.1", "10.0.0.2"] fmtS0 fmtA0 }

/-- The same composite, iterating the score map in the opposite order. -/
def exCompositeAlg2 : RoutingAlgorithm :=
  { name := "composite",
    computeWeights :=
      compositeComputeWeights exC9 ["10.0.0.2", "10.0.0.1"] fmtS0 fmtA0 }

/-- Router agent state holding the first iteration order. -/
def exAgent1 : RouterAgent :=
  { nodeName := "uav-a",
    algorithm := exCompositeAlg1,
    metricsCache := [("uav-a", exNode00), ("uav-b90", exNodeB90)],
    endpointsCache := [("default/svc", [exEpA, exEpB])] }

/-- The same agent state, except the composite iterates the score map in the
opposite order — Go randomizes map iteration order between calls, so both
runs are executions of the same code over the same (unchanged) caches. -/
def exAgent2 : RouterAgent :=
  { nodeName := "uav-a",
    algorithm := exCompositeAlg2,
    metricsCache := [("uav-a", exNode00), ("uav-b90", exNodeB90)],
    endpointsCache := [("default/svc", [exEpA, exEpB])] }

/-- Output entry for the 50%-battery endpoint. -/
def exW50 : EndpointWeight :=
  { endpoint := exEpA, weight := 50, priority := 0, reason := "" }

/-- Output entry for the 90%-battery endpoint (boosted and clamped to 100). -/
def exW100 : EndpointWeight :=
  { endpoint := exEpB, weight := 100, priority := 0, reason := "" }

/-- Folding `+` over a list equals the initial value plus the list sum. -/
theorem foldl_add_eq (l : List ℚ) (init : ℚ) :
    l.foldl (· + ·) init = init + l.sum := by
  induction l generalizing init with
  | nil => simp
  | cons a t ih => simp [ih, List.sum_cons]; ring

/-- Clamp-below-zero as written in the source equals `max 0`. -/
theorem if_lt_zero_eq_max (a : ℚ) : (if a < 0 then 0 else a) = max 0 a := by
  rcases lt_or_le a 0 with h | h
  · simp [h, max_eq_left h.le]
  · simp [not_lt.mpr h, max_eq_right h]

/-! ### C10 — environment helpers can never configure the value 0 -/

/-- C10: for every numeric scheduler environment variable, a value that is
unset (empty), fails to parse (the `Sscanf` result variable stays 0), or
parses to exactly 0 yields the built-in default instead of 0; consequently
the helpers can return 0 only when the default itself is 0, and in
particular `MIN_BATTERY=0` yields threshold 30 and `TARGET_LATITUDE=0`
yields 34.0522. -/
theorem c10_env_zero_never_configured (parseI : String → ℤ)
    (parseF : String → ℚ) (env : String → String) (key : String) (dI : ℤ)
    (dF : ℚ) :
    (env key = "" ∨ parseI (env key) = 0 →
      getEnvIntOrDefault parseI env key dI = dI) ∧
    (env key = "" ∨ parseF (env key) = 0 →
      getEnvFloatOrDefault parseF env key dF = dF) ∧
    (getEnvIntOrDefault parseI env key dI = 0 → dI = 0) ∧
    (getEnvFloatOrDefault parseF env key dF = 0 → dF = 0) ∧
    (env "MIN_BATTERY" = "0" → parseF "0" = 0 →
      (DefaultConfig parseI parseF env).algorithmParams.minBattery = 30) ∧
    (env "TARGET_LATITUDE" = "0" → parseF "0" = 0 →
      (DefaultConfig parseI parseF env).algorithmParams.targetLatitude =
        34.0522) := by
  refine ⟨?_, ?_, ?_, ?_, ?_, ?_⟩
  · rintro (h | h)
    · simp [getEnvIntOrDefault, h]
    · by_cases he : env key = "" <;> simp [getEnvIntOrDefault, he, h]
  · rintro (h | h)
    · simp [getEnvFloatOrDefault, h]
    · by_cases he : env key = "" <;> simp [getEnvFloatOrDefault, he, h]
  · intro h
    by_cases he : env key = ""
    · simpa [getEnvIntOrDefault, he] using h
    · by_cases hp : parseI (env key) = 0
      · simpa [getEnvIntOrDefault, he, hp] using h
      · exact absurd (by simpa [getEnvIntOrDefault, he, hp] using h) hp
  · intro h
    by_cases he : env key = ""
    · simpa [getEnvFloatOrDefault, he] using h
    · by_cases hp : parseF (env key) = 0
      · simpa [getEnvFloatOrDefault, he, hp] using h
      · exact absurd (by simpa [getEnvFloatOrDefault, he, hp] using h) hp
  · intro h1 h2
    simp [DefaultConfig, getEnvFloatOrDefault, h1, h2]
  · intro h1 h2
    simp [DefaultConfig, getEnvFloatOrDefault, h1, h2]

/-- Witness for C10 at concrete inputs: with every variable set to the
literal string `"0"` (which parses to 0), `WORKER_THREADS` falls back to its
default 5 here, `MIN_BATTERY` to 30 and `TARGET_LATITUDE` to 34.0522. -/
theorem c10_witness :
    getEnvIntOrDefault (fun _ => 0) (fun _ => "0") "WORKER_THREADS" 5 = 5 ∧
    (DefaultConfig (fun _ => 0) (fun _ => 0)
      (fun _ => "0")).algorithmParams.minBattery = 30 ∧
    (DefaultConfig (fun _ => 0) (fun _ => 0)
      (fun _ => "0")).algorithmParams.targetLatitude = 34.0522 := by
  have h := c10_env_zero_never_configured (fun _ => 0) (fun _ => 0)
    (fun _ => "0") "WORKER_THREADS" 5 7
  exact ⟨h.1 (Or.inr rfl), h.2.2.2.2.1 rfl rfl, h.2.2.2.2.2 rfl rfl⟩

/-! ### C5 — composite construction: mismatched lengths and zero-sum weights -/

/-- Sum of a replicated weight vector. -/
theorem sum_replicate_div (n : ℕ) :
    (List.replicate n (1 / (n : ℚ))).foldl (· + ·) 0 = n * (1 / (n : ℚ)) := by
  rw [foldl_add_eq, List.sum_replicate, nsmul_eq_mul, zero_add]

/-- C5 (amended): with mismatched lengths the PLACEMENT constructor yields the
uniform vector summing exactly to 1, while the ROUTING constructor fails with
a construction error rather than going uniform; and a zero-sum weight vector
causes a construction-time error in NEITHER constructor — the placement
constructor (whose signature has no error at all) simply leaves the vector
unnormalised, and the routing constructor, for a non-empty length-matched
strategy list, still constructs a composite and returns no error. -/
theorem c5_composite_construction (algos : List SchedulingAlgorithm)
    (ws : List ℚ) (ralgos : List RoutingAlgorithm) (rws : List ℚ)
    (hmm : ws.length ≠ algos.length) (hne : algos ≠ [])
    (hrm : ralgos.length ≠ rws.length) :
    (NewCompositeAlgorithm algos ws).weights =
      List.replicate algos.length (1 / (algos.length : ℚ)) ∧
    (NewCompositeAlgorithm algos ws).weights.foldl (· + ·) 0 = 1 ∧
    (∃ e, NewCompositeRouter ralgos rws = .error e) ∧
    (∀ ws2 : List ℚ, ws2.length = algos.length →
      ws2.foldl (· + ·) 0 = 0 →
      (NewCompositeAlgorithm algos ws2).weights = ws2) ∧
    (∀ (ralgos2 : List RoutingAlgorithm) (rws2 : List ℚ),
      ralgos2 ≠ [] → ralgos2.length = rws2.length →
      rws2.foldl (· + ·) 0 = 0 →
      ∃ cr, NewCompositeRouter ralgos2 rws2 = .ok cr) := by
  have hn : (0 : ℚ) < (algos.length : ℚ) := by
    have : 0 < algos.length := List.length_pos.mpr hne
    exact_mod_cast this
  have hsum : (List.replicate algos.length
      (1 / (algos.length : ℚ))).foldl (· + ·) 0 = 1 := by
    rw [sum_replicate_div, mul_one_div, div_self hn.ne']
  have huni : (NewCompositeAlgorithm algos ws).weights =
      List.replicate algos.length (1 / (algos.length : ℚ)) := by
    simp only [NewCompositeAlgorithm, if_pos hmm, hsum]
    rw [if_pos one_pos]
    simp
  refine ⟨huni, ?_, ?_, ?_, ?_⟩
  · rw [huni, hsum]
  · exact ⟨"algorithms and weights length mismatch",
      by simp [NewCompositeRouter, if_pos hrm]⟩
  · intro ws2 hlen hzero
    simp [NewCompositeAlgorithm, hlen, hzero]
  · intro ralgos2 rws2 hne2 hlen hzero
    refine ⟨{ algorithms := ralgos2,
              weights := rws2.map (· / rws2.foldl (· + ·) 0) }, ?_⟩
    rw [NewCompositeRouter, if_neg (by simp [hlen]),
      if_neg (by simp [List.length_eq_zero, hne2])]

/-- Witness for C5's amended statement at concrete inputs: two placement
strategies with a 1-element weight vector (mismatch), an empty routing
strategy list against a 3-element weight vector (mismatch), and one routing
strategy with the zero-sum weight vector `[0]` — which constructs with no
error. -/
theorem c5_witness :
    (NewCompositeAlgorithm
        [batteryAlgorithm 30 fmt2, networkLatencyAlgorithm 200 fmt2]
        [7]).weights = [1 / 2, 1 / 2] ∧
    (∃ e, NewCompositeRouter [] [1, 2, 3] = .error e) ∧
    (∃ cr, NewCompositeRouter [batteryAlg60] [0] = .ok cr) := by
  have h := c5_composite_construction
    [batteryAlgorithm 30 fmt2, networkLatencyAlgorithm 200 fmt2] [7]
    [] [1, 2, 3] (by decide) (by simp) (by decide)
  refine ⟨?_, h.2.2.1, h.2.2.2.2 [batteryAlg60] [0] (by simp) rfl (by simp)⟩
  rw [h.1]
  norm_num [List.replicate]

/-- Counterexample for C5 as stated: constructing the placement composite
with the zero-sum weight vector `[0, 0]` raises no error at all — the
constructor cannot fail — and returns the weights unnormalised (`[0, 0]`,
which sums to 0, not 1). -/
theorem c5_counterexample :
    (NewCompositeAlgorithm
        [batteryAlgorithm 30 fmt2, networkLatencyAlgorithm 200 fmt2]
        [0, 0]).weights = [0, 0] ∧
    ((0 : ℚ) + 0 ≠ 1) := by
  constructor
  · simp [NewCompositeAlgorithm]
  · norm_num

/-! ### C8 — network-latency placement filter and score -/

/-- C8: the network-latency `Filter` keeps exactly the nodes that carry a
network sub-record with latency at most `MaxLatency` (so the boundary value is
kept); `Score` maps every node to its name with score
`max 0 (100*(1 - latency/MaxLatency))` when network data is present — which
is 0 at the boundary, since `100*(1 - MaxLatency/MaxLatency) = 0` — and to
score 0 with the literal reason `"no network data"` when it is absent (such a
node is still scored, not filtered). -/
theorem c8_network_latency (maxLatency : ℚ) (hpos : 0 < maxLatency)
    (fmtReason : ℚ → ℚ → String) (metrics : List UAVMetrics) :
    (∀ m : UAVMetrics, m ∈ networkLatencyFilter maxLatency metrics ↔
      m ∈ metrics ∧ ∃ n, m.network = some n ∧ n.latency ≤ maxLatency) ∧
    networkLatencyScore maxLatency fmtReason metrics = metrics.map
      (fun m => match m.network with
        | none =>
            { nodeName := m.nodeName, score := 0,
              reason := "no network data" }
        | some n =>
            { nodeName := m.nodeName,
              score := max 0 (100 * (1 - n.latency / maxLatency)),
              reason := fmtReason n.latency maxLatency }) ∧
    100 * (1 - maxLatency / maxLatency) = 0 := by
  refine ⟨?_, ?_, ?_⟩
  · intro m
    constructor
    · intro h
      rw [networkLatencyFilter, List.mem_filter] at h
      refine ⟨h.1, ?_⟩
      rcases hm : m.network with _ | n
      · rw [hm] at h
        simp at h
      · refine ⟨n, rfl, ?_⟩
        have h2 := h.2
        rw [hm] at h2
        simpa using h2
    · rintro ⟨hmem, n, hn, hle⟩
      rw [networkLatencyFilter, List.mem_filter]
      refine ⟨hmem, ?_⟩
      rw [hn]
      simpa using hle
  · unfold networkLatencyScore
    congr 1
    funext m
    rcases m.network with _ | n
    · rfl
    · simp only []
      rw [if_lt_zero_eq_max]
  · rw [div_self hpos.ne']
    ring

/-- Witness for C8 at concrete inputs: `MaxLatency = 200` with one node at
latency 150 and one without network data. -/
theorem c8_witness :
    (0 : ℚ) < 200 ∧
    networkLatencyScore 200 fmt2 [exNodeLat150, exNode00] =
      [exNodeLat150, exNode00].map (fun m => match m.network with
        | none =>
            { nodeName := m.nodeName, score := 0,
              reason := "no network data" }
        | some n =>
            { nodeName := m.nodeName,
              score := max 0 (100 * (1 - n.latency / 200)),
              reason := fmt2 n.latency 200 }) :=
  ⟨by norm_num,
    (c8_network_latency 200 (by norm_num) fmt2 [exNodeLat150, exNode00]).2.1⟩

/-! ### C2 — a produced binding implies event eligibility -/

/-- C2: whenever processing a watch event produces a binding, the pod's
scheduler-name equals the configured scheduler name and its node-name was
empty (and the event was ADDED or MODIFIED); the binding carries the pod's
name/namespace and target kind `"Node"`.  Hence no already-bound pod and no
pod of another scheduler is ever bound. -/
theorem c2_binding_implies_eligibility (cfg : SchedulerConfig)
    (algo : SchedulingAlgorithm) (metrics : List UAVMetrics)
    (ev : WatchEvent) (b : Binding)
    (h : WatchStep cfg algo metrics ev (some b)) :
    ev.pod.schedulerName = cfg.schedulerName ∧ ev.pod.nodeName = "" ∧
    (ev.type = EventType.added ∨ ev.type = EventType.modified) ∧
    b.podName = ev.pod.name ∧ b.podNamespace = ev.pod.namespc ∧
    b.targetKind = "Node" := by
  cases h with
  | scheduled b best helig hrun =>
    have h1 := helig
    simp only [eligibleEvent, Bool.and_eq_true, Bool.or_eq_true,
      beq_iff_eq] at h1
    obtain ⟨⟨hty, hsn⟩, hnn⟩ := h1
    cases hrun with
    | bound best rest hm hf hsort =>
      exact ⟨hsn, hnn, hty, rfl, rfl, rfl⟩

/-- Witness for C2: a full concrete run of the battery strategy over one
50%-battery node produces the binding, and the theorem's conclusions hold. -/
theorem c2_witness :
    exEvC2.pod.schedulerName = exCfg.schedulerName ∧
    exEvC2.pod.nodeName = "" ∧
    (exEvC2.type = EventType.added ∨ exEvC2.type = EventType.modified) ∧
    exBindC2.podName = exEvC2.pod.name ∧
    exBindC2.podNamespace = exEvC2.pod.namespc ∧
    exBindC2.targetKind = "Node" := by
  apply c2_binding_implies_eligibility exCfg (batteryAlgorithm 30 fmt2)
    [exNode00] exEvC2 exBindC2
  refine WatchStep.scheduled exBindC2 exBestC2 (by decide) ?_
  exact SchedulePodRun.bound exBestC2 [] (by decide) (by decide)
    ⟨List.Perm.refl _, by simp⟩

/-! ### C1 — maximum score wins; tie-breaking is NOT by input order -/

/-- C1 (amended): in every admissible placement run — every outcome the
`sort.Slice` contract permits for the comparator `scores[i].Score >
scores[j].Score` — the bound node carries a maximal score over the produced
score list.  (The tie rule of the original claim is refuted separately:
`sort.Slice` is documented as unstable, so the earliest-in-input tied node is
NOT guaranteed to win.) -/
theorem c1_max_score_wins (algo : SchedulingAlgorithm) (pod : Pod)
    (metrics : List UAVMetrics) (b : Binding) (best : NodeScore)
    (h : SchedulePodRun algo pod metrics (some (b, best))) :
    best ∈ algo.score pod (algo.filter pod metrics) ∧
    (∀ t ∈ algo.score pod (algo.filter pod metrics),
      t.score ≤ best.score) ∧
    b.targetNode = best.nodeName := by
  cases h with
  | bound best rest hm hf hsort =>
    obtain ⟨hperm, hsorted⟩ := hsort
    refine ⟨hperm.mem_iff.mpr (List.mem_cons_self _ _), ?_, rfl⟩
    intro t ht
    rcases List.mem_cons.mp (hperm.mem_iff.mp ht) with h | h
    · rw [h]
    · exact (List.pairwise_cons.mp hsorted).1 t h

/-- Witness for C1's amended statement: a concrete two-node run (80% vs 40%
battery) where the sort returns the list in descending order and the 80%
node is bound with the maximal score. -/
theorem c1_witness :
    (⟨"uav-b80", 80, ""⟩ : NodeScore) ∈
      (batteryAlgorithm 30 fmt2).score exPodEligible
        ((batteryAlgorithm 30 fmt2).filter exPodEligible
          [exNodeB80, exNodeB40]) ∧
    (∀ t ∈ (batteryAlgorithm 30 fmt2).score exPodEligible
        ((batteryAlgorithm 30 fmt2).filter exPodEligible
          [exNodeB80, exNodeB40]), t.score ≤ (80 : ℚ)) ∧
    ({ podName := "p-c2", podNamespace := "default", targetKind := "Node",
       targetNode := "uav-b80" } : Binding).targetNode = "uav-b80" := by
  have h := c1_max_score_wins (batteryAlgorithm 30 fmt2) exPodEligible
    [exNodeB80, exNodeB40]
    { podName := "p-c2", podNamespace := "default", targetKind := "Node",
      targetNode := "uav-b80" }
    ⟨"uav-b80", 80, ""⟩
    (SchedulePodRun.bound ⟨"uav-b80", 80, ""⟩ [⟨"uav-b40", 40, ""⟩]
      (by decide) (by decide) ⟨List.Perm.refl _, by simp; norm_num⟩)
  exact h

/-- Counterexample for C1 as stated: with two equal-score (50%) nodes, an
admissible run — the output `[t2, t1]` is a descending-sorted permutation,
which is all Go's unstable `sort.Slice` guarantees — binds `uav-t2`, whereas
the claim's stable-sort rule (`specStableWinner`) picks the earlier input
node `uav-t1`. -/
theorem c1_counterexample :
    SchedulePodRun (batteryAlgorithm 30 fmt2) exPodEligible
      [exNodeT1, exNodeT2]
      (some ({ podName := exPodEligible.name,
               podNamespace := exPodEligible.namespc, targetKind := "Node",
               targetNode := "uav-t2" },
             { nodeName := "uav-t2", score := 50, reason := "" })) ∧
    specStableWinner ((batteryAlgorithm 30 fmt2).score exPodEligible
        ((batteryAlgorithm 30 fmt2).filter exPodEligible
          [exNodeT1, exNodeT2])) =
      some { nodeName := "uav-t1", score := 50, reason := "" } ∧
    ("uav-t2" : String) ≠ "uav-t1" := by
  refine ⟨?_, by decide, by decide⟩
  exact SchedulePodRun.bound ⟨"uav-t2", 50, ""⟩ [⟨"uav-t1", 50, ""⟩]
    (by decide) (by decide)
    ⟨List.Perm.swap _ _ _, by simp⟩

/-! ### C3 — distance target: annotations, else the MUTABLE stored target -/

/-- C3 (amended): the distance strategy scores against the annotation target
when both annotations are present, and stores that target into the algorithm
object; otherwise it scores against the algorithm object's CURRENT stored
target and leaves it unchanged.  Because scoring an annotated item overwrites
the stored target, a later item without annotations is scored against the
most recent annotated item's target — the configured default only until the
first annotated item arrives (final conjunct). -/
theorem c3_distance_target (a : DistanceBasedAlgorithm)
    (fmtReason : ℚ → ℚ → ℚ → String) (pod : Pod)
    (metrics : List UAVMetrics) :
    (∀ la lo, pod.targetLatAnn = some la → pod.targetLonAnn = some lo →
      distanceTargetAfter a pod = ⟨la, lo⟩) ∧
    ((pod.targetLatAnn = none ∨ pod.targetLonAnn = none) →
      distanceTargetAfter a pod = a) ∧
    (distanceScore a fmtReason pod metrics).1 = distanceTargetAfter a pod ∧
    (distanceScore a fmtReason pod metrics).2 = metrics.map (fun m =>
      { nodeName := m.nodeName,
        score := 100 / (1 + schedCalculateDistance m.gps.latitude
          m.gps.longitude (distanceTargetAfter a pod).targetLat
          (distanceTargetAfter a pod).targetLon),
        reason := fmtReason (schedCalculateDistance m.gps.latitude
          m.gps.longitude (distanceTargetAfter a pod).targetLat
          (distanceTargetAfter a pod).targetLon)
          (distanceTargetAfter a pod).targetLat
          (distanceTargetAfter a pod).targetLon }) ∧
    (∀ (la lo : ℚ) (pod1 : Pod) (m1 : List UAVMetrics),
      pod1.targetLatAnn = some la → pod1.targetLonAnn = some lo →
      (pod.targetLatAnn = none ∨ pod.targetLonAnn = none) →
      (distanceScore (distanceScore a fmtReason pod1 m1).1
          fmtReason pod metrics).2 = metrics.map (fun m =>
        { nodeName := m.nodeName,
          score := 100 / (1 + schedCalculateDistance m.gps.latitude
            m.gps.longitude la lo),
          reason := fmtReason (schedCalculateDistance m.gps.latitude
            m.gps.longitude la lo) la lo })) := by
  refine ⟨?_, ?_, rfl, rfl, ?_⟩
  · intro la lo h1 h2
    simp [distanceTargetAfter, h1, h2]
  · rintro (h | h)
    · simp [distanceTargetAfter, h]
    · cases hla : pod.targetLatAnn <;> simp [distanceTargetAfter, h, hla]
  · intro la lo pod1 m1 h1 h2 h3
    have e1 : (distanceScore a fmtReason pod1 m1).1 =
        (⟨la, lo⟩ : DistanceBasedAlgorithm) := by
      simp [distanceScore, distanceTargetAfter, h1, h2]
    rw [e1]
    rcases h3 with h3 | h3
    · simp [distanceScore, distanceTargetAfter, h3]
    · cases hla : pod.targetLatAnn <;>
        simp [distanceScore, distanceTargetAfter, h3, hla]

/-- Witness for C3's amended statement at concrete inputs: the annotated pod
rewrites the stored target to (0, 180); the plain pod leaves it alone; and
scoring the plain pod AFTER the annotated one scores against (0, 180). -/
theorem c3_witness :
    distanceTargetAfter (NewDistanceBasedAlgorithm 0 0) exPodAnn =
      ⟨0, 180⟩ ∧
    distanceTargetAfter (NewDistanceBasedAlgorithm 0 0) exPodPlain =
      NewDistanceBasedAlgorithm 0 0 ∧
    (distanceScore (distanceScore (NewDistanceBasedAlgorithm 0 0) fmt3
        exPodAnn [exNode00]).1 fmt3 exPodPlain [exNode00]).2 =
      [exNode00].map (fun m =>
        { nodeName := m.nodeName,
          score := 100 / (1 + schedCalculateDistance m.gps.latitude
            m.gps.longitude 0 180),
          reason := fmt3 (schedCalculateDistance m.gps.latitude
            m.gps.longitude 0 180) 0 180 }) := by
  have hAnn := c3_distance_target (NewDistanceBasedAlgorithm 0 0) fmt3
    exPodAnn [exNode00]
  have hPlain := c3_distance_target (NewDistanceBasedAlgorithm 0 0) fmt3
    exPodPlain [exNode00]
  exact ⟨hAnn.1 0 180 rfl rfl, hPlain.2.1 (Or.inl rfl),
    hPlain.2.2.2.2 0 180 exPodAnn [exNode00] rfl rfl (Or.inl rfl)⟩

/-- Counterexample for C3 as stated: scoring the annotation-free pod after an
annotated pod was scored does NOT equal scoring it against the configured
default — the node at the default location scores 100 against the fresh
default but `100/(1 + 6371·piGo)` after the annotated pod moved the target to
(0, 180). -/
theorem c3_counterexample :
    (distanceScore (distanceScore (NewDistanceBasedAlgorithm 0 0) fmt3
        exPodAnn [exNode00]).1 fmt3 exPodPlain [exNode00]).2 ≠
    (distanceScore (NewDistanceBasedAlgorithm 0 0) fmt3 exPodPlain
      [exNode00]).2 := by
  with_unfolding_all decide

/-! ### C4 — the two `CalculateDistance` implementations disagree -/

/-- At the equatorial antipodes (0,0) → (0,180) the scheduler's Taylor
pipeline hits the `asin` clamp (`a > 1`) and returns exactly `6371 * piGo`. -/
theorem schedCalculateDistance_antipodal :
    schedCalculateDistance 0 0 0 180 = 6371 * piGo := by
  with_unfolding_all rfl

/-- At the same input the idealised library Haversine returns `6371 * π`. -/
theorem routerCalculateDistance_antipodal :
    routerCalculateDistance 0 0 0 180 = 6371 * Real.pi := by
  rw [routerCalculateDistance]
  have h0 : ((0 : ℝ) - 0) * Real.pi / 180 / 2 = 0 := by ring
  have h1 : ((180 : ℝ) - 0) * Real.pi / 180 / 2 = Real.pi / 2 := by ring
  have h2 : (0 : ℝ) * Real.pi / 180 = 0 := by ring
  simp only [h0, h1, h2, Real.sin_zero, Real.cos_zero, Real.sin_pi_div_two]
  norm_num [mathAtan2]
  ring

/-- The literal `3.14159265359` exceeds π (which is below
3.14159265358979323847). -/
theorem piGo_gt_pi : Real.pi < ((piGo : ℚ) : ℝ) := by
  have hgt : (3.14159265358979323847 : ℝ) < ((piGo : ℚ) : ℝ) := by
    norm_num [piGo]
  exact lt_trans Real.pi_lt_d20 hgt

/-- C4 (amended): the placement controller's Taylor-series
`CalculateDistance` and the routing advisor's library `CalculateDistance` are
NOT equivalent: already at (0,0) → (0,180) the former returns the rational
`6371 * 3.14159265359` while the latter returns `6371 * π`, and these
differ — so the two call sites cannot agree to the bit on identical inputs. -/
theorem c4_implementations_disagree :
    schedCalculateDistance 0 0 0 180 = 6371 * piGo ∧
    routerCalculateDistance 0 0 0 180 = 6371 * Real.pi ∧
    ((6371 * piGo : ℚ) : ℝ) ≠ 6371 * Real.pi := by
  refine ⟨schedCalculateDistance_antipodal,
    routerCalculateDistance_antipodal, ?_⟩
  intro h
  have h2 : ((6371 * piGo : ℚ) : ℝ) = 6371 * ((piGo : ℚ) : ℝ) := by
    push_cast
    ring
  rw [h2] at h
  have h3 : ((piGo : ℚ) : ℝ) = Real.pi := by linarith
  have h4 := piGo_gt_pi
  rw [h3] at h4
  exact lt_irrefl _ h4

/-- Counterexample for C4 as stated: the two `CalculateDistance` functions
return different values at the concrete input (0, 0, 0, 180). -/
theorem c4_counterexample :
    ((schedCalculateDistance 0 0 0 180 : ℚ) : ℝ) ≠
      routerCalculateDistance 0 0 0 180 := by
  rw [schedCalculateDistance_antipodal, routerCalculateDistance_antipodal]
  intro h
  have h2 : ((6371 * piGo : ℚ) : ℝ) = 6371 * ((piGo : ℚ) : ℝ) := by
    push_cast
    ring
  rw [h2] at h
  have h3 : ((piGo : ℚ) : ℝ) = Real.pi := by linarith
  have h4 := piGo_gt_pi
  rw [h3] at h4
  exact lt_irrefl _ h4


/-! ### C6 — distance routing: drop rule, error rule, and the weight formula -/

/-- Go's `int()` after the raise-to-1 step equals `max 1 ⌊·⌋`. -/
theorem if_one_floor_eq_max (w : ℚ) :
    (if w < 1 then (1 : ℤ) else ⌊w⌋) = max 1 ⌊w⌋ := by
  rcases lt_or_le w 1 with h | h
  · have hf : ⌊w⌋ < 1 := by
      have h1 : (⌊w⌋ : ℚ) < 1 := lt_of_le_of_lt (Int.floor_le w) h
      exact_mod_cast h1
    simp [h, max_eq_left hf.le]
  · have hf : 1 ≤ ⌊w⌋ := by
      rw [Int.le_floor]
      exact_mod_cast h
    simp [not_lt.mpr h, max_eq_right hf]

/-- The distance router is the keep-loop followed by the empty check. -/
theorem distanceRouter_eq_keep (r : DistanceBasedRouter)
    (dist : ℚ → ℚ → ℚ → ℚ → ℚ) (expGo : ℚ → ℚ) (fmtReason : ℚ → String)
    (sourceNode : String) (sm : UAVMetrics) (eps : List Endpoint)
    (tm : String → Option UAVMetrics) :
    distanceRouterComputeWeights r dist expGo fmtReason sourceNode (some sm)
        eps tm =
      if eps.filterMap (distanceKeep r dist expGo fmtReason sm tm) = []
      then .error "no eligible endpoints found within max distance"
      else .ok (eps.filterMap (distanceKeep r dist expGo fmtReason sm tm)) :=
  rfl

/-- C6 (amended): the default `MaxDistance` is 1000 km; an endpoint is kept
iff its telemetry is present and its distance is at most `MaxDistance`; a
kept endpoint's weight is `max 1 ⌊100·exp(−km/50)⌋` — Go `int()` truncates,
it does not round — and the strategy returns an error exactly when every
endpoint is dropped. -/
theorem c6_distance_router (md : ℚ) (dist : ℚ → ℚ → ℚ → ℚ → ℚ)
    (expGo : ℚ → ℚ) (fmtReason : ℚ → String) (sourceNode : String)
    (sm : UAVMetrics) (eps : List Endpoint)
    (tm : String → Option UAVMetrics) :
    (md ≤ 0 → (NewDistanceBasedRouter md).maxDistance = 1000) ∧
    (0 < md → (NewDistanceBasedRouter md).maxDistance = md) ∧
    (∀ r : DistanceBasedRouter,
      ((∃ e, distanceRouterComputeWeights r dist expGo fmtReason sourceNode
          (some sm) eps tm = .error e) ↔
        ∀ ep ∈ eps, ∀ t, tm ep.nodeName = some t →
          r.maxDistance < dist sm.gps.latitude sm.gps.longitude
            t.gps.latitude t.gps.longitude)) ∧
    (∀ (r : DistanceBasedRouter) (out : List EndpointWeight),
      distanceRouterComputeWeights r dist expGo fmtReason sourceNode
          (some sm) eps tm = .ok out →
      ∀ w ∈ out, ∃ ep ∈ eps, ∃ t, tm ep.nodeName = some t ∧
        dist sm.gps.latitude sm.gps.longitude t.gps.latitude
          t.gps.longitude ≤ r.maxDistance ∧
        w.endpoint = ep ∧
        w.weight = max 1 ⌊100 * expGo (-(dist sm.gps.latitude
          sm.gps.longitude t.gps.latitude t.gps.longitude / 50))⌋) := by
  refine ⟨fun h => by simp [NewDistanceBasedRouter, h],
    fun h => by simp [NewDistanceBasedRouter, not_le.mpr h], ?_, ?_⟩
  · intro r
    rw [distanceRouter_eq_keep]
    constructor
    · rintro ⟨e, he⟩ ep hep t ht
      by_cases hnil :
          eps.filterMap (distanceKeep r dist expGo fmtReason sm tm) = []
      · have hdrop := (List.filterMap_eq_nil.mp hnil) ep hep
        rw [distanceKeep, ht] at hdrop
        simp only at hdrop
        by_cases hd : r.maxDistance < dist sm.gps.latitude sm.gps.longitude
            t.gps.latitude t.gps.longitude
        · exact hd
        · rw [if_neg hd] at hdrop
          split_ifs at hdrop <;> simp at hdrop
      · rw [if_neg hnil] at he
        exact absurd he (by simp)
    · intro hall
      have hnil :
          eps.filterMap (distanceKeep r dist expGo fmtReason sm tm) = [] := by
        rw [List.filterMap_eq_nil]
        intro ep hep
        rw [distanceKeep]
        rcases htm : tm ep.nodeName with _ | t
        · simp
        · simp only
          rw [if_pos (hall ep hep t htm)]
      rw [hnil]
      exact ⟨_, rfl⟩
  · intro r out hout w hw
    rw [distanceRouter_eq_keep] at hout
    by_cases hnil :
        eps.filterMap (distanceKeep r dist expGo fmtReason sm tm) = []
    · rw [if_pos hnil] at hout
      exact absurd hout (by simp)
    · rw [if_neg hnil] at hout
      cases hout
      obtain ⟨ep, hep, hfe⟩ := List.mem_filterMap.mp hw
      refine ⟨ep, hep, ?_⟩
      rw [distanceKeep] at hfe
      rcases htm : tm ep.nodeName with _ | t
      · rw [htm] at hfe
        simp at hfe
      · rw [htm] at hfe
        simp only at hfe
        by_cases hd : r.maxDistance < dist sm.gps.latitude sm.gps.longitude
            t.gps.latitude t.gps.longitude
        · rw [if_pos hd] at hfe
          simp at hfe
        · rw [if_neg hd] at hfe
          refine ⟨t, rfl, not_lt.mp hd, ?_⟩
          rw [← if_one_floor_eq_max]
          by_cases hw1 : 100 * expGo (-(dist sm.gps.latitude
              sm.gps.longitude t.gps.latitude t.gps.longitude / 50)) < 1
          · rw [if_pos hw1] at hfe
            cases hfe
            exact ⟨rfl, by rw [if_pos hw1]⟩
          · rw [if_neg hw1] at hfe
            cases hfe
            exact ⟨rfl, by rw [if_neg hw1]⟩

/-- Witness for C6's amended statement at concrete inputs: a non-positive
configuration falls back to 1000 km, and a concrete kept endpoint at 200 km
receives weight `max 1 ⌊100·exp(−4)⌋ = 1`. -/
theorem c6_witness :
    (-5 : ℚ) ≤ 0 ∧ (NewDistanceBasedRouter (-5)).maxDistance = 1000 ∧
    (∃ ep ∈ [exEpA], ∃ t,
      (fun _ : String => some exNode00) ep.nodeName = some t ∧
      dist200 exNode00.gps.latitude exNode00.gps.longitude t.gps.latitude
        t.gps.longitude ≤ (NewDistanceBasedRouter 1000).maxDistance ∧
      ({ endpoint := exEpA, weight := 1, priority := 0,
         reason := "" } : EndpointWeight).endpoint = ep ∧
      ({ endpoint := exEpA, weight := 1, priority := 0,
         reason := "" } : EndpointWeight).weight =
        max 1 ⌊100 * exp183 (-(dist200 exNode00.gps.latitude
          exNode00.gps.longitude t.gps.latitude t.gps.longitude / 50))⌋) := by
  have h := c6_distance_router (-5) dist200 exp183 fmt1 "uav-a" exNode00
    [exEpA] (fun _ => some exNode00)
  have h4 := (c6_distance_router 1000 dist200 exp183 fmt1 "uav-a" exNode00
    [exEpA] (fun _ => some exNode00)).2.2.2
  exact ⟨by norm_num, h.1 (by norm_num),
    h4 (NewDistanceBasedRouter 1000)
      [{ endpoint := exEpA, weight := 1, priority := 0, reason := "" }]
      (by with_unfolding_all rfl) _ (by simp)⟩

/-- Counterexample for C6 as stated: for an endpoint kept at 200 km the code
returns weight `1` (`int()` truncation of `1.831…`), while the claim's
formula `max(1, round(100·exp(−200/50)))` gives `2`. -/
theorem c6_counterexample :
    distanceRouterComputeWeights (NewDistanceBasedRouter 1000) dist200 exp183
      fmt1 "uav-a" (some exNode00) [exEpA] (fun _ => some exNode00) =
      .ok [{ endpoint := exEpA, weight := 1, priority := 0, reason := "" }] ∧
    max 1 (round ((100 : ℚ) * exp183 (-(200 / 50)))) = 2 ∧
    (1 : ℤ) ≠ 2 := by
  refine ⟨by with_unfolding_all rfl, by with_unfolding_all decide, by decide⟩

/-! ### C7 — composite routing: error skipping, error condition, aggregation -/

/-- `addScore` updates exactly the touched key of the association list. -/
theorem lookup_addScore (acc : List (String × ℚ × List String)) (k : String)
    (v : ℚ) (r : String) (k' : String) :
    (addScore acc k v r).lookup k' =
      if k' = k then
        match acc.lookup k with
        | none => some (v, [r])
        | some (s, rs) => some (s + v, rs ++ [r])
      else acc.lookup k' := by
  induction acc with
  | nil =>
    by_cases h : k' = k
    · simp [addScore, List.lookup, h]
    · have hb : (k' == k) = false := beq_eq_false_iff_ne.mpr h
      simp [addScore, List.lookup, h, hb]
  | cons hd t ih =>
    obtain ⟨k0, s0, rs0⟩ := hd
    by_cases h0 : k0 = k
    · subst h0
      by_cases h' : k' = k0
      · simp [addScore, List.lookup, h']
      · have hb : (k' == k0) = false := beq_eq_false_iff_ne.mpr h'
        simp [addScore, List.lookup, h', hb]
    · by_cases h' : k' = k0
      · subst h'
        simp [addScore, h0, List.lookup, Ne.symm h0]
      · have hb : (k' == k0) = false := beq_eq_false_iff_ne.mpr h'
        have hb2 : (k == k0) = false := beq_eq_false_iff_ne.mpr (Ne.symm h0)
        simp [addScore, h0, List.lookup, h', ih, hb, hb2]

/-- Effect of one `addScore` on the accumulated score of any key. -/
theorem scoreOf_addScore (acc : List (String × ℚ × List String)) (k : String)
    (v : ℚ) (r : String) (ip : String) :
    scoreOf (addScore acc k v r) ip =
      scoreOf acc ip + if ip = k then v else 0 := by
  rw [scoreOf, scoreOf, lookup_addScore]
  by_cases h : ip = k
  · subst h
    rcases hacc : acc.lookup ip with _ | ⟨s, rs⟩ <;> simp [hacc]
  · simp [h]

/-- `addScore` never empties the list. -/
theorem addScore_ne_nil (acc : List (String × ℚ × List String)) (k : String)
    (v : ℚ) (r : String) : addScore acc k v r ≠ [] := by
  cases acc with
  | nil => simp [addScore]
  | cons hd t =>
    obtain ⟨k0, s0, rs0⟩ := hd
    by_cases h : k0 = k <;> simp [addScore, h]

/-- Effect of one sub-strategy's entry loop on the accumulated score. -/
theorem scoreOf_foldl_add (ws : List EndpointWeight) (c : ℚ)
    (rf : EndpointWeight → String) (acc : List (String × ℚ × List String))
    (ip : String) :
    scoreOf (ws.foldl (fun acc w => addScore acc w.endpoint.podIP
        ((w.weight : ℚ) * c) (rf w)) acc) ip =
      scoreOf acc ip + ((ws.filter fun w => w.endpoint.podIP == ip).map
        fun w => (w.weight : ℚ) * c).sum := by
  induction ws generalizing acc with
  | nil => simp
  | cons w ws ih =>
    rw [List.foldl_cons, ih, scoreOf_addScore]
    by_cases h : w.endpoint.podIP = ip
    · have hb : (w.endpoint.podIP == ip) = true := beq_iff_eq.mpr h
      simp [List.filter_cons, hb, h.symm]
      ring
    · have hb : (w.endpoint.podIP == ip) = false := beq_eq_false_iff_ne.mpr h
      have h' : ¬ ip = w.endpoint.podIP := fun e => h e.symm
      simp [List.filter_cons, hb, h']

/-- The entry loop never empties a non-empty accumulator, and starting from
the empty accumulator it is empty exactly when there are no entries. -/
theorem foldl_add_ne_nil (ws : List EndpointWeight) (c : ℚ)
    (rf : EndpointWeight → String) (acc : List (String × ℚ × List String))
    (h : acc ≠ []) :
    ws.foldl (fun acc w => addScore acc w.endpoint.podIP
      ((w.weight : ℚ) * c) (rf w)) acc ≠ [] := by
  induction ws generalizing acc with
  | nil => exact h
  | cons w ws ih =>
    rw [List.foldl_cons]
    exact ih _ (addScore_ne_nil _ _ _ _)

/-- The entry loop is empty iff both the accumulator and the entries are. -/
theorem foldl_add_eq_nil_iff (ws : List EndpointWeight) (c : ℚ)
    (rf : EndpointWeight → String) (acc : List (String × ℚ × List String)) :
    (ws.foldl (fun acc w => addScore acc w.endpoint.podIP
        ((w.weight : ℚ) * c) (rf w)) acc = []) ↔ acc = [] ∧ ws = [] := by
  cases ws with
  | nil => simp
  | cons w ws =>
    rw [List.foldl_cons]
    constructor
    · intro h
      exact absurd h (foldl_add_ne_nil _ _ _ _ (addScore_ne_nil _ _ _ _))
    · rintro ⟨-, h⟩
      exact absurd h (by simp)

/-- The whole accumulation is empty iff every (strategy, weight) pair either
errors or returns an empty weight list. -/
theorem foldl_accumStep_eq_nil_iff (subs : List (RoutingAlgorithm × ℚ))
    (fmtSub : String → ℚ → String → String) (sourceNode : String)
    (sm : Option UAVMetrics) (eps : List Endpoint)
    (tm : String → Option UAVMetrics)
    (acc : List (String × ℚ × List String)) :
    (subs.foldl (accumStep fmtSub sourceNode sm eps tm) acc = []) ↔
      acc = [] ∧ ∀ aw ∈ subs,
        (∃ e, aw.1.computeWeights sourceNode sm eps tm = .error e) ∨
        aw.1.computeWeights sourceNode sm eps tm = .ok [] := by
  induction subs generalizing acc with
  | nil => simp
  | cons aw subs ih =>
    rw [List.foldl_cons, ih]
    constructor
    · rintro ⟨h1, h2⟩
      rw [accumStep] at h1
      rcases hcw : aw.1.computeWeights sourceNode sm eps tm with e | ws
      · rw [hcw] at h1
        refine ⟨h1, ?_⟩
        intro aw' haw'
        rcases List.mem_cons.mp haw' with h | h
        · subst h
          exact Or.inl ⟨e, hcw⟩
        · exact h2 aw' h
      · rw [hcw] at h1
        obtain ⟨hacc, hws⟩ := (foldl_add_eq_nil_iff _ _ _ _).mp h1
        refine ⟨hacc, ?_⟩
        intro aw' haw'
        rcases List.mem_cons.mp haw' with h | h
        · subst h
          exact Or.inr (by rw [hcw, hws])
        · exact h2 aw' h
    · rintro ⟨hacc, hall⟩
      refine ⟨?_, fun aw' haw' => hall aw' (List.mem_cons_of_mem _ haw')⟩
      rw [accumStep]
      rcases hall aw (List.mem_cons_self _ _) with ⟨e, hcw⟩ | hcw <;>
        rw [hcw] <;> simp [hacc]

/-- The accumulated score of any pod IP equals the spec-side aggregate. -/
theorem scoreOf_foldl_accumStep (subs : List (RoutingAlgorithm × ℚ))
    (fmtSub : String → ℚ → String → String) (sourceNode : String)
    (sm : Option UAVMetrics) (eps : List Endpoint)
    (tm : String → Option UAVMetrics)
    (acc : List (String × ℚ × List String)) (ip : String) :
    scoreOf (subs.foldl (accumStep fmtSub sourceNode sm eps tm) acc) ip =
      scoreOf acc ip + specAggScore subs sourceNode sm eps tm ip := by
  induction subs generalizing acc with
  | nil => simp [specAggScore]
  | cons aw subs ih =>
    rw [List.foldl_cons, ih]
    have hs : specAggScore (aw :: subs) sourceNode sm eps tm ip =
        (match aw.1.computeWeights sourceNode sm eps tm with
         | .error _ => 0
         | .ok ws => ((ws.filter fun w => w.endpoint.podIP == ip).map
             fun w => (w.weight : ℚ) * aw.2).sum) +
          specAggScore subs sourceNode sm eps tm ip := by
      rw [specAggScore, List.map_cons, List.sum_cons, specAggScore]
    rw [hs]
    rcases hcw : aw.1.computeWeights sourceNode sm eps tm with e | ws
    · simp only [accumStep, hcw]
      ring
    · simp only [accumStep, hcw]
      rw [scoreOf_foldl_add]
      ring

/-- The two-sided clamp as written in the source equals `max 1 (min 100 ·)`. -/
theorem clamp_one_hundred_eq (s : ℚ) :
    (if (if 100 < s then (100 : ℚ) else s) < 1 then (1 : ℚ)
     else if 100 < s then (100 : ℚ) else s) = max 1 (min 100 s) := by
  rcases lt_or_le 100 s with h1 | h1
  · rw [if_pos h1, if_neg (by norm_num : ¬(100 : ℚ) < 1), min_eq_left h1.le,
      max_eq_right (by norm_num : (1 : ℚ) ≤ 100)]
  · rw [if_neg (not_lt.mpr h1), min_eq_right h1]
    rcases lt_or_le s 1 with h2 | h2
    · rw [if_pos h2, max_eq_left h2.le]
    · rw [if_neg (not_lt.mpr h2), max_eq_right h2]

/-- C7: the routing composite (i) skips erroring sub-strategies and fails —
with *NoEligibleEndpoints* — exactly when every (strategy, weight) pair
either errors or contributes no entry; and (ii) every emitted endpoint
weight is the pod-IP-keyed aggregate `Σᵢ weightᵢ·w_subᵢ` clamped to
`[1, 100]` (then truncated to an integer, which on `[1, 100]` is the floor),
for an endpoint drawn from the target endpoint list. -/
theorem c7_composite_routing (r : CompositeRouter) (iterOrder : List String)
    (fmtSub : String → ℚ → String → String) (fmtAgg : List String → String)
    (sourceNode : String) (sm : Option UAVMetrics) (eps : List Endpoint)
    (tm : String → Option UAVMetrics) :
    ((∃ e, compositeComputeWeights r iterOrder fmtSub fmtAgg sourceNode sm
        eps tm = .error e) ↔
      ∀ aw ∈ r.algorithms.zip r.weights,
        (∃ e, aw.1.computeWeights sourceNode sm eps tm = .error e) ∨
        aw.1.computeWeights sourceNode sm eps tm = .ok []) ∧
    (∀ out, compositeComputeWeights r iterOrder fmtSub fmtAgg sourceNode sm
        eps tm = .ok out →
      ∀ w ∈ out,
        w.endpoint ∈ eps ∧
        w.weight = ⌊max 1 (min 100 (specAggScore (r.algorithms.zip
          r.weights) sourceNode sm eps tm w.endpoint.podIP))⌋ ∧
        1 ≤ w.weight ∧ w.weight ≤ 100) := by
  have hkey : (compositeAccum r fmtSub sourceNode sm eps tm = []) ↔
      ∀ aw ∈ r.algorithms.zip r.weights,
        (∃ e, aw.1.computeWeights sourceNode sm eps tm = .error e) ∨
        aw.1.computeWeights sourceNode sm eps tm = .ok [] := by
    rw [compositeAccum, foldl_accumStep_eq_nil_iff]
    simp
  constructor
  · constructor
    · rintro ⟨e, he⟩
      by_cases hnil : compositeAccum r fmtSub sourceNode sm eps tm = []
      · exact hkey.mp hnil
      · simp only [compositeComputeWeights] at he
        rw [if_neg hnil] at he
        exact absurd he (by simp)
    · intro hall
      refine ⟨"no eligible endpoints found by any algorithm", ?_⟩
      simp only [compositeComputeWeights]
      rw [if_pos (hkey.mpr hall)]
  · intro out hout w hw
    simp only [compositeComputeWeights] at hout
    by_cases hnil : compositeAccum r fmtSub sourceNode sm eps tm = []
    · rw [if_pos hnil] at hout
      exact absurd hout (by simp)
    · rw [if_neg hnil] at hout
      cases hout
      obtain ⟨ip, hip, hemit⟩ := List.mem_filterMap.mp hw
      rw [compositeEmit] at hemit
      rcases hlk : (compositeAccum r fmtSub sourceNode sm eps tm).lookup ip
        with _ | ⟨score, rs⟩
      · rw [hlk] at hemit
        simp at hemit
      · rw [hlk] at hemit
        simp only at hemit
        rcases hfind : eps.reverse.find? (fun ep => ep.podIP == ip)
          with _ | ep
        · rw [hfind] at hemit
          simp at hemit
        · rw [hfind] at hemit
          cases hemit
          have hmem : ep ∈ eps :=
            List.mem_reverse.mp (List.mem_of_find?_eq_some hfind)
          have hipeq : ep.podIP = ip := by
            have hp := List.find?_some hfind
            simpa [beq_iff_eq] using hp
          have hscore : score = specAggScore (r.algorithms.zip r.weights)
              sourceNode sm eps tm ip := by
            have h0 := scoreOf_foldl_accumStep (r.algorithms.zip r.weights)
              fmtSub sourceNode sm eps tm [] ip
            rw [show scoreOf [] ip = 0 from rfl, zero_add] at h0
            have h1 : scoreOf (compositeAccum r fmtSub sourceNode sm eps tm)
                ip = score := by
              rw [scoreOf, hlk]
            rw [← h1, compositeAccum, h0]
          have hw1 : (⌊max 1 (min 100 score)⌋ : ℤ) ∈
              Set.Icc (1 : ℤ) 100 := by
            constructor
            · rw [Int.le_floor]
              exact_mod_cast le_max_left 1 (min 100 score)
            · have hle : max 1 (min 100 score) ≤ (100 : ℚ) :=
                max_le (by norm_num) (min_le_left _ _)
              have := Int.floor_le_floor hle
              simpa using this
          refine ⟨hmem, ?_, ?_, ?_⟩
          · show ⌊if (if 100 < score then (100 : ℚ) else score) < 1
              then (1 : ℚ) else if 100 < score then (100 : ℚ) else score⌋ =
              ⌊max 1 (min 100 (specAggScore (r.algorithms.zip r.weights)
                sourceNode sm eps tm ep.podIP))⌋
            rw [clamp_one_hundred_eq, hipeq, ← hscore]
          · show (1 : ℤ) ≤ ⌊if (if 100 < score then (100 : ℚ) else score)
              < 1 then (1 : ℚ) else if 100 < score then (100 : ℚ)
              else score⌋
            rw [clamp_one_hundred_eq]
            exact hw1.1
          · show ⌊if (if 100 < score then (100 : ℚ) else score) < 1
              then (1 : ℚ) else if 100 < score then (100 : ℚ)
              else score⌋ ≤ (100 : ℤ)
            rw [clamp_one_hundred_eq]
            exact hw1.2

/-- Witness for C7 at concrete inputs: a composite whose only sub-strategy
errors (battery threshold 60% against a 50% node) returns the
*NoEligibleEndpoints* error; a composite of that erroring strategy (weight
0.7) and a succeeding battery strategy (weight 0.3) skips the error and emits
weight `15 = ⌊max 1 (min 100 (50·0.3))⌋` for the surviving endpoint. -/
theorem c7_witness :
    (∃ e, compositeComputeWeights ⟨[batteryAlg60], [1]⟩ ["10.0.0.1"] fmtS0
      fmtA0 "src" (some exNode00) [exEpA] (fun _ => some exNode00) =
        .error e) ∧
    exW15.endpoint ∈ [exEpA] ∧
    exW15.weight = ⌊max 1 (min 100 (specAggScore
      ([batteryAlg60, batteryAlg50].zip [7/10, 3/10]) "src" (some exNode00)
      [exEpA] (fun _ => some exNode00) exW15.endpoint.podIP))⌋ ∧
    1 ≤ exW15.weight ∧ exW15.weight ≤ 100 := by
  have h1 := (c7_composite_routing ⟨[batteryAlg60], [1]⟩ ["10.0.0.1"] fmtS0
    fmtA0 "src" (some exNode00) [exEpA] (fun _ => some exNode00)).1
  have h2 := (c7_composite_routing ⟨[batteryAlg60, batteryAlg50],
    [7/10, 3/10]⟩ ["10.0.0.1"] fmtS0 fmtA0 "src" (some exNode00) [exEpA]
    (fun _ => some exNode00)).2
  refine ⟨h1.mpr ?_, h2 [exW15] (by with_unfolding_all rfl) exW15
    (by simp)⟩
  intro aw haw
  have hz : ((⟨[batteryAlg60], [1]⟩ :
      CompositeRouter).algorithms.zip (⟨[batteryAlg60], [1]⟩ :
      CompositeRouter).weights) = [(batteryAlg60, (1 : ℚ))] := rfl
  rw [hz] at haw
  have he : aw = (batteryAlg60, (1 : ℚ)) := List.mem_singleton.mp haw
  subst he
  exact Or.inl ⟨"no eligible endpoints found with battery above threshold",
    by with_unfolding_all rfl⟩

/-! ### C9 — weight range; repeated queries agree only up to list order -/

/-- Floor of the `[1, 100]` clamp stays in `[1, 100]`. -/
theorem floor_clamp_bounds (s : ℚ) :
    1 ≤ ⌊max 1 (min 100 s)⌋ ∧ ⌊max 1 (min 100 s)⌋ ≤ 100 := by
  constructor
  · rw [Int.le_floor]
    exact_mod_cast le_max_left 1 (min 100 s)
  · have hle : max 1 (min 100 s) ≤ (100 : ℚ) :=
      max_le (by norm_num) (min_le_left _ _)
    have := Int.floor_le_floor hle
    simpa using this

/-- The battery router is the keep-loop followed by the empty check. -/
theorem batteryRouter_eq_keep (r : BatteryAwareRouter)
    (fmtReason : ℚ → ℚ → String) (sourceNode : String)
    (sourceMetrics : Option UAVMetrics) (eps : List Endpoint)
    (tm : String → Option UAVMetrics) :
    batteryRouterComputeWeights r fmtReason sourceNode sourceMetrics eps tm =
      if eps.filterMap (batteryKeep r fmtReason tm) = []
      then .error "no eligible endpoints found with battery above threshold"
      else .ok (eps.filterMap (batteryKeep r fmtReason tm)) :=
  rfl

/-- C9 (amended): every weight any of the three routing strategies emits is
an integer in `[1, 100]` (for the distance strategy, granted that distances
are non-negative and `exp` of a non-positive argument is at most 1 — true of
the real library functions); the composite's output is independent of the
map-iteration order UP TO PERMUTATION — equal error, or outputs that are
permutations of each other — but not as an ordered list; and the `[1, 100]`
range lifts through `ComputeRouting` for whatever strategy the agent holds. -/
theorem c9_weight_range_and_order (rb : BatteryAwareRouter)
    (fmtB : ℚ → ℚ → String) (rd : DistanceBasedRouter)
    (dist : ℚ → ℚ → ℚ → ℚ → ℚ) (expGo : ℚ → ℚ) (fmtD : ℚ → String)
    (hd : ∀ a b c d, 0 ≤ dist a b c d) (he : ∀ q, q ≤ 0 → expGo q ≤ 1)
    (r : CompositeRouter) (o1 o2 : List String) (hperm : o1.Perm o2)
    (fmtSub : String → ℚ → String → String) (fmtAgg : List String → String)
    (sn : String) (sm : Option UAVMetrics) (smm : UAVMetrics)
    (eps : List Endpoint) (tm : String → Option UAVMetrics)
    (agent : RouterAgent) :
    (∀ out, batteryRouterComputeWeights rb fmtB sn sm eps tm = .ok out →
      ∀ w ∈ out, 1 ≤ w.weight ∧ w.weight ≤ 100) ∧
    (∀ out, distanceRouterComputeWeights rd dist expGo fmtD sn (some smm)
        eps tm = .ok out →
      ∀ w ∈ out, 1 ≤ w.weight ∧ w.weight ≤ 100) ∧
    (∀ out, compositeComputeWeights r o1 fmtSub fmtAgg sn sm eps tm =
        .ok out → ∀ w ∈ out, 1 ≤ w.weight ∧ w.weight ≤ 100) ∧
    (∀ e, compositeComputeWeights r o1 fmtSub fmtAgg sn sm eps tm =
        .error e ↔
      compositeComputeWeights r o2 fmtSub fmtAgg sn sm eps tm = .error e) ∧
    (∀ out1 out2,
      compositeComputeWeights r o1 fmtSub fmtAgg sn sm eps tm = .ok out1 →
      compositeComputeWeights r o2 fmtSub fmtAgg sn sm eps tm = .ok out2 →
      out1.Perm out2) ∧
    ((∀ sn2 sm2 eps2 tm2 out, agent.algorithm.computeWeights sn2 sm2 eps2
        tm2 = .ok out → ∀ w ∈ out, 1 ≤ w.weight ∧ w.weight ≤ 100) →
      ∀ s out, ComputeRouting agent s = .ok out →
        ∀ w ∈ out, 1 ≤ w.weight ∧ w.weight ≤ 100) := by
  refine ⟨?_, ?_, ?_, ?_, ?_, ?_⟩
  · intro out hout w hw
    rw [batteryRouter_eq_keep] at hout
    by_cases hnil : eps.filterMap (batteryKeep rb fmtB tm) = []
    · rw [if_pos hnil] at hout
      exact absurd hout (by simp)
    · rw [if_neg hnil] at hout
      cases hout
      obtain ⟨ep, _, hfe⟩ := List.mem_filterMap.mp hw
      rw [batteryKeep] at hfe
      rcases htm : tm ep.nodeName with _ | t
      · rw [htm] at hfe
        simp at hfe
      · rw [htm] at hfe
        simp only at hfe
        by_cases hb : t.battery.remainingPercent < rb.minBattery
        · rw [if_pos hb] at hfe
          simp at hfe
        · rw [if_neg hb] at hfe
          cases hfe
          constructor
          · show (1 : ℤ) ≤ ⌊if (if 100 < _ then (100 : ℚ) else _) < 1
              then (1 : ℚ) else _⌋
            rw [clamp_one_hundred_eq]
            exact (floor_clamp_bounds _).1
          · show ⌊if (if 100 < _ then (100 : ℚ) else _) < 1
              then (1 : ℚ) else _⌋ ≤ (100 : ℤ)
            rw [clamp_one_hundred_eq]
            exact (floor_clamp_bounds _).2
  · intro out hout w hw
    rw [distanceRouter_eq_keep] at hout
    by_cases hnil : eps.filterMap (distanceKeep rd dist expGo fmtD smm tm)
        = []
    · rw [if_pos hnil] at hout
      exact absurd hout (by simp)
    · rw [if_neg hnil] at hout
      cases hout
      obtain ⟨ep, _, hfe⟩ := List.mem_filterMap.mp hw
      rw [distanceKeep] at hfe
      rcases htm : tm ep.nodeName with _ | t
      · rw [htm] at hfe
        simp at hfe
      · rw [htm] at hfe
        simp only at hfe
        by_cases hdd : rd.maxDistance < dist smm.gps.latitude
            smm.gps.longitude t.gps.latitude t.gps.longitude
        · rw [if_pos hdd] at hfe
          simp at hfe
        · rw [if_neg hdd] at hfe
          have hexp : 100 * expGo (-(dist smm.gps.latitude smm.gps.longitude
              t.gps.latitude t.gps.longitude / 50)) ≤ 100 := by
            have h1 : expGo (-(dist smm.gps.latitude smm.gps.longitude
                t.gps.latitude t.gps.longitude / 50)) ≤ 1 := by
              apply he
              have := hd smm.gps.latitude smm.gps.longitude t.gps.latitude
                t.gps.longitude
              have : (0 : ℚ) ≤ dist smm.gps.latitude smm.gps.longitude
                  t.gps.latitude t.gps.longitude / 50 := by positivity
              linarith
            linarith
          by_cases hw1 : 100 * expGo (-(dist smm.gps.latitude
              smm.gps.longitude t.gps.latitude t.gps.longitude / 50)) < 1
          · rw [if_pos hw1] at hfe
            cases hfe
            exact ⟨le_refl _, by norm_num⟩
          · rw [if_neg hw1] at hfe
            cases hfe
            constructor
            · show (1 : ℤ) ≤ ⌊100 * expGo _⌋
              rw [Int.le_floor]
              exact_mod_cast not_lt.mp hw1
            · show ⌊100 * expGo _⌋ ≤ (100 : ℤ)
              have := Int.floor_le_floor hexp
              simpa using this
  · intro out hout w hw
    simp only [compositeComputeWeights] at hout
    by_cases hnil : compositeAccum r fmtSub sn sm eps tm = []
    · rw [if_pos hnil] at hout
      exact absurd hout (by simp)
    · rw [if_neg hnil] at hout
      cases hout
      obtain ⟨ip, _, hemit⟩ := List.mem_filterMap.mp hw
      rw [compositeEmit] at hemit
      rcases hlk : (compositeAccum r fmtSub sn sm eps tm).lookup ip
        with _ | ⟨score, rs⟩
      · rw [hlk] at hemit
        simp at hemit
      · rw [hlk] at hemit
        simp only at hemit
        rcases hfind : eps.reverse.find? (fun ep => ep.podIP == ip)
          with _ | ep
        · rw [hfind] at hemit
          simp at hemit
        · rw [hfind] at hemit
          cases hemit
          constructor
          · show (1 : ℤ) ≤ ⌊if (if 100 < score then (100 : ℚ) else score)
              < 1 then (1 : ℚ) else if 100 < score then (100 : ℚ)
              else score⌋
            rw [clamp_one_hundred_eq]
            exact (floor_clamp_bounds _).1
          · show ⌊if (if 100 < score then (100 : ℚ) else score) < 1
              then (1 : ℚ) else if 100 < score then (100 : ℚ)
              else score⌋ ≤ (100 : ℤ)
            rw [clamp_one_hundred_eq]
            exact (floor_clamp_bounds _).2
  · intro e
    simp only [compositeComputeWeights]
    by_cases hnil : compositeAccum r fmtSub sn sm eps tm = [] <;>
      simp [hnil]
  · intro out1 out2 h1 h2
    simp only [compositeComputeWeights] at h1 h2
    by_cases hnil : compositeAccum r fmtSub sn sm eps tm = []
    · rw [if_pos hnil] at h1
      exact absurd h1 (by simp)
    · rw [if_neg hnil] at h1
      rw [if_neg hnil] at h2
      cases h1
      cases h2
      exact hperm.filterMap _
  · intro halg s out hout w hw
    simp only [ComputeRouting] at hout
    rcases hsrc : agent.metricsCache.lookup agent.nodeName with _ | sm2
    · rw [hsrc] at hout
      exact absurd hout (by simp)
    · rw [hsrc] at hout
      simp only at hout
      rcases heps : agent.endpointsCache.lookup s with _ | eps2
      · rw [heps] at hout
        exact absurd hout (by simp)
      · rw [heps] at hout
        simp only at hout
        by_cases hnil : eps2 = []
        · rw [if_pos hnil] at hout
          exact absurd hout (by simp)
        · rw [if_neg hnil] at hout
          rcases halgres : agent.algorithm.computeWeights agent.nodeName
              (some sm2) eps2 (fun n => agent.metricsCache.lookup n)
            with e | ws
          · rw [halgres] at hout
            exact absurd hout (by simp)
          · rw [halgres] at hout
            cases hout
            exact halg _ _ _ _ _ halgres w hw

/-- Witness for C9's amended statement at concrete inputs: the battery
strategy's concrete output weights lie in `[1, 100]`, and the two iteration
orders of the concrete composite run produce outputs that are permutations
of each other. -/
theorem c9_witness :
    (∀ w ∈ [exW50, exW100], 1 ≤ w.weight ∧ w.weight ≤ 100) ∧
    ([exW50, exW100] : List EndpointWeight).Perm [exW100, exW50] := by
  have h := c9_weight_range_and_order (NewBatteryAwareRouter 20) fmt2
    (NewDistanceBasedRouter 1000) dist200 exp183 fmt1
    (fun _ _ _ _ => by norm_num [dist200])
    (fun q _ => by norm_num [exp183]) exC9
    ["10.0.0.1", "10.0.0.2"] ["10.0.0.2", "10.0.0.1"]
    (List.Perm.swap _ _ _) fmtS0 fmtA0 "uav-a"
    (some exNode00) exNode00 [exEpA, exEpB]
    (fun n => exAgent1.metricsCache.lookup n) exAgent1
  refine ⟨h.1 [exW50, exW100] (by with_unfolding_all rfl), ?_⟩
  exact h.2.2.2.2.1 [exW50, exW100] [exW100, exW50]
    (by with_unfolding_all rfl) (by with_unfolding_all rfl)

/-- Counterexample for C9 as stated: two `ComputeRouting` calls with
identical caches and node identity — differing only in the composite's map
iteration order, which Go randomizes between calls of the same code — return
the same entries in different list orders, so the output is NOT identical. -/
theorem c9_counterexample :
    exAgent1.nodeName = exAgent2.nodeName ∧
    exAgent1.metricsCache = exAgent2.metricsCache ∧
    exAgent1.endpointsCache = exAgent2.endpointsCache ∧
    ComputeRouting exAgent1 "default/svc" = .ok [exW50, exW100] ∧
    ComputeRouting exAgent2 "default/svc" = .ok [exW100, exW50] ∧
    ([exW50, exW100] : List EndpointWeight) ≠ [exW100, exW50] := by
  refine ⟨rfl, rfl, rfl, by with_unfolding_all rfl,
    by with_unfolding_all rfl, by decide⟩
